import Mathlib

/-!
The job_submit/lua plugin: the two policy hooks.

A shallow embedding of `src/plugins/job_submit/lua/job_submit_lua.c`.

The plugin keeps one interpreter handle `L`, three time stamps and a mutex in
file-scope variables; they are the fields of `PluginState`.  The hooks
`job_submit` and `job_modify` are embedded statement by statement as functions
on that state.  Everything the plugin calls but does not define (the Lua C API,
the helpers declared in `src/common/slurm_lua.h`, the script itself) is either
a field of `Env` or a small definition whose doc comment says where its
behaviour comes from.

A hook that cannot return (the mutex is held by somebody else, or the
interpreter handle is NULL when the Lua API dereferences it) yields
`Except.error`; a hook that returns yields `Except.ok` with the status code,
the caller's message slot and the state it leaves behind.
-/

namespace JobSubmitLua

/-! ## Constants -/

/-- The value of SLURM_SUCCESS in slurm/slurm_errno.h. -/
def SLURM_SUCCESS : Int := 0

/-- The value of SLURM_ERROR in slurm/slurm_errno.h. -/
def SLURM_ERROR : Int := -1

/-- Smallest value of a C int. -/
def INT_MIN : Int := -2147483648

/-- Largest value of a C int. -/
def INT_MAX : Int := 2147483647

/-- The status lua_pcall returns when the called function raised an error (lua.h). -/
def LUA_ERRRUN : Int := 2

/-- Name of the global that mirrors the job list. -/
def JOBS_GLOBAL : String := "slurm.jobs"

/-- Name of the global that mirrors the reservation list. -/
def RESVS_GLOBAL : String := "slurm.reservations"

/-! ## Data model -/

/-- A lua_Number is a C double: a finite value (always a rational), an infinity or a NaN. -/
inductive lua_Number where
  | finite (q : Rat)
  | pos_inf
  | neg_inf
  | nan
  deriving DecidableEq

/-- The part of struct job_descriptor the plugin reads itself (user_id); the
other fields are only seen by the marshalling helper and stand behind `request`. -/
structure job_descriptor where
  user_id : Nat
  request : Nat
  deriving DecidableEq

/-- The part of struct job_record the plugin reads itself (user_id). -/
structure job_record where
  job_id : Nat
  user_id : Nat
  deriving DecidableEq

/-- Tables the host builds for the script, and tables the script builds itself. -/
inductive LuaTable where
  | job_desc (d : job_descriptor)
  | job_rec (j : job_record)
  | partition_list (user_id : Nat) (submit_uid : Nat)
  | jobs (stamp : Nat)
  | resvs (stamp : Nat)
  | script (id : Nat)
  deriving DecidableEq

/-- A Lua value as the C API sees it. -/
inductive LuaValue where
  | nil
  | boolean (b : Bool)
  | number (x : lua_Number)
  | string (str : String)
  | table (t : LuaTable)
  | function (f : Nat)
  | userdata (u : Nat)
  deriving DecidableEq

/-- One interpreter: its identity (the address the handle points to), its value
stack with the top first, and its global namespace. -/
structure lua_State where
  id : Nat
  stack : List LuaValue
  globals : String → LuaValue

/-- What one run of a script function does: it returns values or raises an
error value, it may have written to the user-message side channel, and it may
have assigned globals. -/
structure CallResult where
  outcome : Except LuaValue (List LuaValue)
  user_msg : Option String
  assigns : List (String × LuaValue)

/-- Lines written to the log. -/
inductive LogEntry where
  | error (text : String)
  | info (text : String)
  deriving DecidableEq

/-- The lock levels of slurmctld/locks.h. -/
inductive lock_level_t where
  | NO_LOCK
  | READ_LOCK
  | WRITE_LOCK
  deriving DecidableEq

/-- The calls a hook makes, in the order it makes them. -/
inductive Event where
  | mutex_lock
  | mutex_unlock
  | load_script
  | update_jobs_global (refreshed : Bool)
  | update_resvs_global (refreshed : Bool)
  | getglobal (name : String)
  | push_job_desc (d : job_descriptor)
  | push_job_rec (j : job_record)
  | push_partition_list (user_id : Nat) (submit_uid : Nat)
  | pushnumber (x : lua_Number)
  | stack_dump (pfx : String)
  | pcall (f : LuaValue) (args : List LuaValue) (nresults : Nat)
  | get_user_msg
  | xlua_dlopen
  | lock_slurmctld (lock_levels : List lock_level_t)
  | unlock_slurmctld (lock_levels : List lock_level_t)
  deriving DecidableEq

/-- Why a hook does not return. -/
inductive Stuck where
  | null_interpreter
  | would_block
  deriving DecidableEq

/-- Everything outside the plugin file.  `load_script` is slurm_lua_load_script
of `src/common/slurm_lua.c`: from the handle and the last-loaded stamp it gives
the return code, the handle and the stamp afterwards.  `script` is the
behaviour of the function values of the loaded script.  `str2number` and
`number2str` are the Lua coercions between strings and numbers.
`undefined_int` is what the platform yields for a double to int conversion
that C leaves undefined.  `xlua_dlopen` is the status of binding the Lua
library. -/
structure Env where
  xlua_dlopen : Int
  load_script : Option lua_State → Nat → Int × Option lua_State × Nat
  script : Nat → List LuaValue → CallResult
  str2number : String → Option lua_Number
  number2str : lua_Number → String
  undefined_int : lua_Number → Int
  last_job_update : Nat
  last_resv_update : Nat
  now : Nat
  DEFAULT_SCRIPT_DIR : String

/-- The file-scope variables of the plugin (`L`, `lua_script_last_loaded`,
`last_lua_jobs_update`, `last_lua_resv_update`, `lua_lock`), the user-message
buffer behind slurm_lua_get_user_msg, the log, and the record of calls made. -/
structure PluginState where
  L : Option lua_State
  lua_script_last_loaded : Nat
  last_lua_jobs_update : Nat
  last_lua_resv_update : Nat
  lua_lock : Bool
  user_msg : Option String
  log : List LogEntry
  trace : List Event

/-- What a hook hands back: the status code, the content of the caller's
message slot `*err_msg` afterwards, and the plugin state. -/
structure HookResult where
  rc : Int
  err_msg : Option String
  state : PluginState

/-- The handle identity of the interpreter, if there is one. -/
def PluginState.handle (s : PluginState) : Option Nat :=
  s.L.map lua_State.id

/-- The static `lua_script_path`. -/
def lua_script_path (env : Env) : String :=
  env.DEFAULT_SCRIPT_DIR ++ "/job_submit.lua"

/-! ## The Lua C API, as far as the plugin uses it (Lua reference manual) -/

/-- Run `f` on the interpreter behind the handle; a NULL handle cannot be dereferenced. -/
def with_interp (s : PluginState) (e : Event) (f : lua_State → lua_State) :
    Except Stuck PluginState :=
  match s.L with
  | none => .error .null_interpreter
  | some l => .ok { s with L := some (f l), trace := s.trace ++ [e] }

/-- The value at index -1; an empty stack has no such value and reads as nil. -/
def lua_State.top (l : lua_State) : LuaValue :=
  l.stack.headD .nil

/-- Pushes the value of the global `name`. -/
def lua_getglobal (name : String) (s : PluginState) : Except Stuck PluginState :=
  with_interp s (.getglobal name) fun l => { l with stack := l.globals name :: l.stack }

/-- Whether the value at index -1 is nil. -/
def lua_isnil (s : PluginState) : Except Stuck Bool :=
  match s.L with
  | none => .error .null_interpreter
  | some l => .ok (decide (l.top = .nil))

/-- Pushes a number. -/
def lua_pushnumber (x : lua_Number) (s : PluginState) : Except Stuck PluginState :=
  with_interp s (.pushnumber x) fun l => { l with stack := .number x :: l.stack }

/-- The number a value is or converts to: numbers themselves, and strings that
the interpreter can read as a number. -/
def LuaValue.to_number (env : Env) : LuaValue → Option lua_Number
  | .number x => some x
  | .string str => env.str2number str
  | _ => none

/-- Holds for a number and for a string convertible to a number. -/
def LuaValue.isnumber (env : Env) (v : LuaValue) : Bool :=
  (v.to_number env).isSome

/-- The function lua_isnumber at index -1. -/
def lua_isnumber (env : Env) (s : PluginState) : Except Stuck Bool :=
  match s.L with
  | none => .error .null_interpreter
  | some l => .ok (l.top.isnumber env)

/-- The function lua_tonumber at index -1; a value that is not a number or a
convertible string gives 0. -/
def lua_tonumber (env : Env) (s : PluginState) : Except Stuck lua_Number :=
  match s.L with
  | none => .error .null_interpreter
  | some l => .ok ((l.top.to_number env).getD (.finite 0))

/-- The text lua_tostring yields: strings and numbers have one, other values yield NULL. -/
def LuaValue.to_string (env : Env) : LuaValue → Option String
  | .string str => some str
  | .number x => some (env.number2str x)
  | _ => none

/-- The function lua_tostring at index -1.  A number in that slot is replaced by its text. -/
def lua_tostring (env : Env) (s : PluginState) : Except Stuck (Option String × PluginState) :=
  match s.L with
  | none => .error .null_interpreter
  | some l =>
    match l.stack with
    | .number x :: rest =>
      .ok (some (env.number2str x),
           { s with L := some { l with stack := .string (env.number2str x) :: rest } })
    | _ => .ok (l.top.to_string env, s)

/-- Pops `n` values. -/
def lua_pop (n : Nat) (s : PluginState) : Except Stuck PluginState :=
  match s.L with
  | none => .error .null_interpreter
  | some l => .ok { s with L := some { l with stack := l.stack.drop n } }

/-- The C conversion of a double to int in `rc = lua_tonumber(L, -1)`: the
fraction is discarded; when the integral part does not fit in an int (or the
value is not finite) C leaves the result undefined. -/
def double_to_int (env : Env) : lua_Number → Int
  | .finite q =>
    if INT_MIN ≤ Int.tdiv q.num q.den ∧ Int.tdiv q.num q.den ≤ INT_MAX then Int.tdiv q.num q.den
    else env.undefined_int (.finite q)
  | x => env.undefined_int x

/-- Exactly `n` results: surplus values are dropped, missing ones are nil. -/
def adjust_results (n : Nat) (results : List LuaValue) : List LuaValue :=
  results.take n ++ List.replicate (n - results.length) .nil

/-- Calling a value: a function runs the script; anything else raises an error. -/
def lua_call (env : Env) (f : LuaValue) (args : List LuaValue) : CallResult :=
  match f with
  | .function fid => env.script fid args
  | _ => { outcome := .error (.string "attempt to call a non-function value"),
           user_msg := none, assigns := [] }

/-- Globals after a list of assignments, the first assignment applied first. -/
def assign_globals (g : String → LuaValue) : List (String × LuaValue) → String → LuaValue
  | [] => g
  | (k, v) :: rest => assign_globals (fun name => if name = k then v else g name) rest

/-- Modelled from the spec: the write side of the UserMessageBuffer (the log.user
function of src/common/slurm_lua.c, not among the sources), "a side channel the
script may append to". -/
def log_user_msg (buf : Option String) (written : Option String) : Option String :=
  match buf, written with
  | b, none => b
  | none, some m => some m
  | some b, some m => some (b ++ m)

/-- The function lua_pcall with no message handler: takes the function and its
`nargs` arguments off the stack, runs it, and pushes either exactly `nresults`
results (status 0) or the error value (status LUA_ERRRUN). -/
def lua_pcall (env : Env) (nargs : Nat) (nresults : Nat) (s : PluginState) :
    Except Stuck (Int × PluginState) :=
  match s.L with
  | none => .error .null_interpreter
  | some l =>
    let args : List LuaValue := (l.stack.take nargs).reverse
    let f : LuaValue := (l.stack.drop nargs).headD LuaValue.nil
    let rest : List LuaValue := l.stack.drop (nargs + 1)
    let r : CallResult := lua_call env f args
    let s1 : PluginState :=
      { s with
        user_msg := log_user_msg s.user_msg r.user_msg,
        trace := s.trace ++ [.pcall f args nresults] }
    match r.outcome with
    | .error e =>
      .ok (LUA_ERRRUN, { s1 with L := some { l with stack := e :: rest,
                                                    globals := assign_globals l.globals r.assigns } })
    | .ok results =>
      .ok (0, { s1 with L := some { l with stack := (adjust_results nresults results).reverse ++ rest,
                                           globals := assign_globals l.globals r.assigns } })

/-! ## The helpers declared in src/common/slurm_lua.h -/

/-- The call `slurm_lua_load_script(&L, lua_script_path, &lua_script_last_loaded, fns)`:
it may replace the handle and the stamp and returns a status. -/
def slurm_lua_load_script (env : Env) (s : PluginState) : Int × PluginState :=
  let r := env.load_script s.L s.lua_script_last_loaded
  (r.1, { s with L := r.2.1, lua_script_last_loaded := r.2.2, trace := s.trace ++ [.load_script] })

/-- Modelled from the spec: slurm_lua_update_jobs_global of src/common/slurm_lua.c
(not among the sources), after "GlobalMirror.refresh": when the job list was
mutated after the last sync the whole global is replaced and the sync stamp is
set to now; otherwise nothing happens. -/
def slurm_lua_update_jobs_global (env : Env) (s : PluginState) : Except Stuck PluginState :=
  if s.last_lua_jobs_update < env.last_job_update then
    match s.L with
    | none => .error .null_interpreter
    | some l =>
      .ok { s with
            L := some { l with globals := fun name =>
                          if name = JOBS_GLOBAL then .table (.jobs env.last_job_update)
                          else l.globals name },
            last_lua_jobs_update := env.now,
            trace := s.trace ++ [.update_jobs_global true] }
  else .ok { s with trace := s.trace ++ [.update_jobs_global false] }

/-- Modelled from the spec: slurm_lua_update_resvs_global of src/common/slurm_lua.c
(not among the sources), after "GlobalMirror.refresh", for the reservation list. -/
def slurm_lua_update_resvs_global (env : Env) (s : PluginState) : Except Stuck PluginState :=
  if s.last_lua_resv_update < env.last_resv_update then
    match s.L with
    | none => .error .null_interpreter
    | some l =>
      .ok { s with
            L := some { l with globals := fun name =>
                          if name = RESVS_GLOBAL then .table (.resvs env.last_resv_update)
                          else l.globals name },
            last_lua_resv_update := env.now,
            trace := s.trace ++ [.update_resvs_global true] }
  else .ok { s with trace := s.trace ++ [.update_resvs_global false] }

/-- Modelled from the spec: slurm_lua_push_job_desc of src/common/slurm_lua.c (not
among the sources), after "RecordMarshaller.pushJobRequest": one table for the
job request is placed on the pending arguments. -/
def slurm_lua_push_job_desc (job_desc : job_descriptor) (s : PluginState) :
    Except Stuck PluginState :=
  with_interp s (.push_job_desc job_desc) fun l =>
    { l with stack := .table (.job_desc job_desc) :: l.stack }

/-- Modelled from the spec: slurm_lua_push_job_rec of src/common/slurm_lua.c (not
among the sources), after "RecordMarshaller.pushJobRecord". -/
def slurm_lua_push_job_rec (job_ptr : job_record) (s : PluginState) :
    Except Stuck PluginState :=
  with_interp s (.push_job_rec job_ptr) fun l =>
    { l with stack := .table (.job_rec job_ptr) :: l.stack }

/-- Modelled from the spec: slurm_lua_push_partition_list of src/common/slurm_lua.c
(not among the sources), after "RecordMarshaller.pushPartitionSet(userId,
submitterId)": one table, the partitions visible to the pair. -/
def slurm_lua_push_partition_list (user_id : Nat) (submit_uid : Nat) (s : PluginState) :
    Except Stuck PluginState :=
  with_interp s (.push_partition_list user_id submit_uid) fun l =>
    { l with stack := .table (.partition_list user_id submit_uid) :: l.stack }

/-- The debugging aid slurm_lua_stack_dump: it prints and changes nothing. -/
def slurm_lua_stack_dump (pfx : String) (s : PluginState) : PluginState :=
  { s with trace := s.trace ++ [.stack_dump pfx] }

/-- Modelled from the spec: slurm_lua_get_user_msg of src/common/slurm_lua.c (not
among the sources), the read side of the UserMessageBuffer, "read and cleared
after every call": the buffer content is handed out and the buffer is empty
afterwards. -/
def slurm_lua_get_user_msg (s : PluginState) : Option String × PluginState :=
  (s.user_msg, { s with user_msg := none, trace := s.trace ++ [.get_user_msg] })

/-- The logging calls `error(...)` and `info(...)`. -/
def write_log (e : LogEntry) (s : PluginState) : PluginState :=
  { s with log := s.log ++ [e] }

/-- The macro slurm_mutex_lock on `lua_lock`: it returns once the mutex is
taken; while somebody else holds the mutex it does not return. -/
def slurm_mutex_lock (s : PluginState) : Except Stuck PluginState :=
  if s.lua_lock then .error .would_block
  else .ok { s with lua_lock := true, trace := s.trace ++ [.mutex_lock] }

/-- The macro slurm_mutex_unlock on `lua_lock`. -/
def slurm_mutex_unlock (s : PluginState) : PluginState :=
  { s with lua_lock := false, trace := s.trace ++ [.mutex_unlock] }

/-- The text of `error("%s/lua: %s: %s", __func__, lua_script_path, lua_tostring (L, -1))`;
a NULL string prints as "(null)". -/
def pcall_error_text (env : Env) (func : String) (msg : Option String) : String :=
  func ++ "/lua: " ++ lua_script_path env ++ ": " ++ msg.getD "(null)"

/-- The text of `info("%s/lua: %s: non-numeric return code", __func__, lua_script_path)`. -/
def non_numeric_text (env : Env) (func : String) : String :=
  func ++ "/lua: " ++ lua_script_path env ++ ": non-numeric return code"

/-- The text of the diagnostic job_modify writes when it discards a user message. -/
def discard_text (user_msg : String) : String :=
  "Use of log.user() in job_modify is not supported. Message discarded: (\"" ++ user_msg ++ "\")"

/-- The conversion of the uint32_t `submit_uid` to a lua_Number. -/
def uid_to_number (submit_uid : Nat) : lua_Number :=
  .finite (submit_uid : Rat)

/-! ## The hooks -/

/-- The branch `if (lua_pcall (L, nargs, 1, 0) != 0) ... else ...` shared by
both hooks (lines 198-210 and 245-257): the status code and the state after it. -/
def read_result (env : Env) (func : String) (rc : Int) (status : Int) (s : PluginState) :
    Except Stuck (Int × PluginState) := do
  if status ≠ 0 then
    let (msg, s) ← lua_tostring env s
    pure (rc, write_log (.error (pcall_error_text env func msg)) s)
  else
    if (← lua_isnumber env s) then
      let x ← lua_tonumber env s
      let s ← lua_pop 1 s
      pure (double_to_int env x, s)
    else
      let s := write_log (.info (non_numeric_text env func)) s
      let s ← lua_pop 1 s
      pure (SLURM_SUCCESS, s)

/-- Lua script hook called for "submit job" event (lines 172-219). -/
def job_submit (env : Env) (job_desc : job_descriptor) (submit_uid : Nat)
    (err_msg : Option String) (s : PluginState) : Except Stuck HookResult := do
  let rc := SLURM_ERROR
  let s ← slurm_mutex_lock s
  let s := (slurm_lua_load_script env s).2
  let s ← slurm_lua_update_jobs_global env s
  let s ← slurm_lua_update_resvs_global env s
  let s ← lua_getglobal "slurm_job_submit" s
  if (← lua_isnil s) then
    pure { rc := rc, err_msg := err_msg, state := slurm_mutex_unlock s }
  else
    let s ← slurm_lua_update_jobs_global env s
    let s ← slurm_lua_update_resvs_global env s
    let s ← slurm_lua_push_job_desc job_desc s
    let s ← slurm_lua_push_partition_list job_desc.user_id submit_uid s
    let s ← lua_pushnumber (uid_to_number submit_uid) s
    let s := slurm_lua_stack_dump "job_submit, before lua_pcall" s
    let (status, s) ← lua_pcall env 3 1 s
    let (rc, s) ← read_result env "job_submit" rc status s
    let s := slurm_lua_stack_dump "job_submit, after lua_pcall" s
    let (user_msg, s) := slurm_lua_get_user_msg s
    let err_msg := match user_msg with
      | some m => some m
      | none => err_msg
    pure { rc := rc, err_msg := err_msg, state := slurm_mutex_unlock s }

/-- Lua script hook called for "modify job" event (lines 222-269).  The C
function has no message parameter; `err_msg` of the result is always `none`. -/
def job_modify (env : Env) (job_desc : job_descriptor) (job_ptr : job_record)
    (submit_uid : Nat) (s : PluginState) : Except Stuck HookResult := do
  let rc := SLURM_ERROR
  let s ← slurm_mutex_lock s
  let s ← lua_getglobal "slurm_job_modify" s
  if (← lua_isnil s) then
    pure { rc := rc, err_msg := none, state := slurm_mutex_unlock s }
  else
    let s ← slurm_lua_update_jobs_global env s
    let s ← slurm_lua_update_resvs_global env s
    let s ← slurm_lua_push_job_desc job_desc s
    let s ← slurm_lua_push_job_rec job_ptr s
    let s ← slurm_lua_push_partition_list job_ptr.user_id submit_uid s
    let s ← lua_pushnumber (uid_to_number submit_uid) s
    let s := slurm_lua_stack_dump "job_modify, before lua_pcall" s
    let (status, s) ← lua_pcall env 4 1 s
    let (rc, s) ← read_result env "job_modify" rc status s
    let s := slurm_lua_stack_dump "job_modify, after lua_pcall" s
    let (user_msg, s) := slurm_lua_get_user_msg s
    let s := match user_msg with
      | some m => write_log (.error (discard_text m)) s
      | none => s
    pure { rc := rc, err_msg := none, state := slurm_mutex_unlock s }

/-- The array `fns` of required entry points (lines 102-106). -/
def fns : List String := ["slurm_job_submit", "slurm_job_modify"]

/-- The lock set `job_read_lock` of init (lines 144-145): a read lock on jobs. -/
def job_read_lock : List lock_level_t :=
  [.NO_LOCK, .READ_LOCK, .NO_LOCK, .NO_LOCK, .NO_LOCK]

/-- The call `xlua_dlopen()`. -/
def xlua_dlopen (env : Env) (s : PluginState) : Int × PluginState :=
  (env.xlua_dlopen, { s with trace := s.trace ++ [.xlua_dlopen] })

/-- The call `lock_slurmctld(lock_levels)`. -/
def lock_slurmctld (lock_levels : List lock_level_t) (s : PluginState) : PluginState :=
  { s with trace := s.trace ++ [.lock_slurmctld lock_levels] }

/-- The call `unlock_slurmctld(lock_levels)`. -/
def unlock_slurmctld (lock_levels : List lock_level_t) (s : PluginState) : PluginState :=
  { s with trace := s.trace ++ [.unlock_slurmctld lock_levels] }

/-- The init callback (lines 139-162): the status it returns and the state it leaves. -/
def init (env : Env) (s : PluginState) : Except Stuck (Int × PluginState) := do
  let (rc, s) := xlua_dlopen env s
  if rc ≠ SLURM_SUCCESS then
    pure (rc, s)
  else
    let (rc, s) := slurm_lua_load_script env s
    let s := lock_slurmctld job_read_lock s
    let s ← slurm_lua_update_jobs_global env s
    let s ← slurm_lua_update_resvs_global env s
    let s := unlock_slurmctld job_read_lock s
    pure (rc, s)

/-! ## The reload check, from the specification -/

/-- The script file as a reload check finds it: its modification time, and the
interpreter that loading and running its body yields (`none` when the body has
a syntax error or fails while it runs). -/
structure ScriptFile where
  mtime : Nat
  loaded : Option lua_State

/-- A value that can be called. -/
def LuaValue.callable : LuaValue → Bool
  | .function _ => true
  | _ => false

/-- What a reload check does: its status, the handle and the stamp it leaves,
and whether it constructed a fresh interpreter. -/
structure LoadResult where
  rc : Int
  L : Option lua_State
  last_loaded : Nat
  constructed : Bool

/-- Modelled from the spec: slurm_lua_load_script of src/common/slurm_lua.c (only
its declaration in slurm_lua.h is among the sources), after "ScriptHost.ensureLoaded":
the file is examined (`none`: ScriptNotFound); when its modification time has
not strictly increased since the last successful load and an interpreter
exists, nothing happens; otherwise a fresh interpreter is constructed, the
body is loaded and run, and every required entry point must resolve to a
callable value; on any failure the previous interpreter, if any, is kept, and
on success the fresh interpreter replaces it and the stamp is the file's. -/
def slurm_lua_load_script_spec (file : Option ScriptFile) (required : List String)
    (L : Option lua_State) (last_loaded : Nat) : LoadResult :=
  match file with
  | none => ⟨SLURM_ERROR, L, last_loaded, false⟩
  | some f =>
    if f.mtime ≤ last_loaded ∧ L.isSome = true then ⟨SLURM_SUCCESS, L, last_loaded, false⟩
    else
      match f.loaded with
      | none => ⟨SLURM_ERROR, L, last_loaded, true⟩
      | some fresh =>
        if required.all (fun name => (fresh.globals name).callable) then
          ⟨SLURM_SUCCESS, some fresh, f.mtime, true⟩
        else ⟨SLURM_ERROR, L, last_loaded, true⟩

/-- The same surroundings with the reload check of the specification on `file`
and the entry points `fns`. -/
def Env.with_file (env : Env) (file : Option ScriptFile) : Env :=
  { env with load_script := fun L t =>
      ((slurm_lua_load_script_spec file fns L t).rc,
       (slurm_lua_load_script_spec file fns L t).L,
       (slurm_lua_load_script_spec file fns L t).last_loaded) }

/-- A sequence of reload checks, one for each state of the file in `files`. -/
def load_checks (env : Env) : List (Option ScriptFile) → PluginState → PluginState
  | [], s => s
  | file :: rest, s => load_checks env rest (slurm_lua_load_script (env.with_file file) s).2

/-! ## Closed forms used in the proofs -/

/-- The three arguments of the submit hook (lines 194-196). -/
def submit_args (job_desc : job_descriptor) (submit_uid : Nat) : List LuaValue :=
  [.table (.job_desc job_desc), .table (.partition_list job_desc.user_id submit_uid),
   .number (uid_to_number submit_uid)]

/-- The four arguments of the modify hook (lines 240-243). -/
def modify_args (job_desc : job_descriptor) (job_ptr : job_record) (submit_uid : Nat) :
    List LuaValue :=
  [.table (.job_desc job_desc), .table (.job_rec job_ptr),
   .table (.partition_list job_ptr.user_id submit_uid), .number (uid_to_number submit_uid)]

/-- The status code a hook derives from the outcome of the interpreter call. -/
def status_of (env : Env) : Except LuaValue (List LuaValue) → Int
  | .error _ => SLURM_ERROR
  | .ok results =>
    if (results.headD .nil).isnumber env then
      double_to_int env (((results.headD .nil).to_number env).getD (.finite 0))
    else SLURM_SUCCESS

/-- The log lines a hook writes for the outcome of the interpreter call. -/
def call_log (env : Env) (func : String) : Except LuaValue (List LuaValue) → List LogEntry
  | .error e => [.error (pcall_error_text env func (e.to_string env))]
  | .ok results =>
    if (results.headD .nil).isnumber env then [] else [.info (non_numeric_text env func)]

/-- What the interpreter call leaves on the stack above the values that were there before. -/
def call_residue (env : Env) : Except LuaValue (List LuaValue) → List LuaValue
  | .error (.number x) => [.string (env.number2str x)]
  | .error e => [e]
  | .ok _ => []

/-- The log lines job_modify writes for the content of the user-message buffer. -/
def discard_log : Option String → List LogEntry
  | some m => [.error (discard_text m)]
  | none => []


/-- The same surroundings with a script that writes nothing to the user-message side channel. -/
def Env.silent (env : Env) : Env :=
  { env with script := fun f args => { env.script f args with user_msg := none } }

/-- The same surroundings with a different script. -/
def Env.with_script (env : Env) (script : Nat → List LuaValue → CallResult) : Env :=
  { env with script := script }

/-- Whether an event is an interpreter call. -/
def Event.is_pcall : Event → Bool
  | .pcall _ _ _ => true
  | _ => false

/-! ## Concrete inputs used in the examples -/

/-- Surroundings for the examples: the reload check changes nothing, every
function of the script behaves as `r`, and neither mirror is stale. -/
def demo_env (r : CallResult) : Env where
  xlua_dlopen := SLURM_SUCCESS
  load_script := fun L t => (SLURM_SUCCESS, L, t)
  script := fun _ _ => r
  str2number := fun _ => none
  number2str := fun _ => "?"
  undefined_int := fun _ => INT_MIN
  last_job_update := 0
  last_resv_update := 0
  now := 0
  DEFAULT_SCRIPT_DIR := "/etc/slurm"

/-- Surroundings for the examples in which the script file cannot be loaded:
the reload check fails and leaves no interpreter. -/
def demo_env_load_fails : Env :=
  { demo_env ⟨.ok [], none, []⟩ with load_script := fun _ t => (SLURM_ERROR, none, t) }

/-- The globals of a script that defines both entry points. -/
def demo_globals : String → LuaValue := fun name =>
  if name = "slurm_job_submit" then .function 0
  else if name = "slurm_job_modify" then .function 1
  else .nil

/-- An interpreter that has loaded a script with both entry points. -/
def demo_interp : lua_State := ⟨1, [], demo_globals⟩

/-- An interpreter whose script defines neither entry point. -/
def demo_interp_no_entry : lua_State := ⟨1, [], fun _ => .nil⟩

/-- The plugin at rest with `demo_interp` loaded. -/
def demo_state : PluginState := ⟨some demo_interp, 0, 0, 0, false, none, [], []⟩

/-- The plugin at rest with `demo_interp_no_entry` loaded. -/
def demo_state_no_entry : PluginState := ⟨some demo_interp_no_entry, 0, 0, 0, false, none, [], []⟩

/-- The plugin at rest without an interpreter. -/
def demo_state_null : PluginState := ⟨none, 0, 0, 0, false, none, [], []⟩

/-- A job request of user 1000. -/
def demo_job_desc : job_descriptor := ⟨1000, 0⟩

/-- A job record owned by user 1000. -/
def demo_job_rec : job_record := ⟨42, 1000⟩

/-- Whether an event pushes the partition set. -/
def Event.is_push_partition_list : Event → Bool
  | .push_partition_list _ _ => true
  | _ => false

/-- Whether an event pushes an argument of the call. -/
def Event.is_push : Event → Bool
  | .push_job_desc _ => true
  | .push_job_rec _ => true
  | .push_partition_list _ _ => true
  | .pushnumber _ => true
  | _ => false

/-- A job record owned by user 2000. -/
def demo_job_rec_other : job_record := ⟨43, 2000⟩

/-- A script file changed at time 50 whose body loads into `demo_interp`. -/
def demo_file : ScriptFile := ⟨50, some demo_interp⟩

/-- Surroundings for the examples in which both source collections were last
mutated at time 10 and it is now time 20. -/
def demo_env_stale : Env :=
  { demo_env ⟨.ok [], none, []⟩ with last_job_update := 10, last_resv_update := 10, now := 20 }

/-- The plugin at rest with `demo_interp` loaded at time 50. -/
def demo_state_loaded : PluginState := ⟨some demo_interp, 50, 0, 0, false, none, [], []⟩

end JobSubmitLua

/-!
The cluster commands of sacctmgr: a shallow embedding of the argument scanning
in `src/sacctmgr/cluster_functions.c`.
-/

namespace Sacctmgr

open JobSubmitLua (SLURM_SUCCESS SLURM_ERROR)

/-- The value of NO_VAL in slurm/slurm.h. -/
def NO_VAL : Nat := 4294967294

/-- The test `strncasecmp(s, pat, n) == 0`: the first `n` characters agree up to case. -/
def strncasecmp_eq (s : String) (pat : String) (n : Nat) : Bool :=
  (s.toList.take n).map Char.toLower == (pat.toList.take n).map Char.toLower

/-- The text `s + off` of C: `s` without its first `off` characters. -/
def str_from (s : String) (off : Nat) : String :=
  String.mk (s.toList.drop off)

/-- Everything the scanned functions call but do not define.  `parse_option_end`
gives the offset behind the "=" of an option and 0 for a bare token;
`addto_char_list` gives the list after adding the names in a text;
`get_uint` reads an unsigned value (`none`: not SLURM_SUCCESS); `time_str2mins`
reads a time as an int, NO_VAL on failure; `acct_storage_g_remove_clusters`
gives the list of removed objects or NULL; `commit_check` is the answer of the
user to a question. -/
structure Env where
  parse_option_end : String → Nat
  addto_char_list : List String → String → List String
  get_uint : String → String → Option Nat
  time_str2mins : String → Int
  acct_storage_g_remove_clusters : List String → Option (List String)
  commit_check : String → Bool

/-- What _set_cond works on: the two lists, the flag `set`, and what it printed. -/
structure CondState where
  cluster_list : List String
  format_list : Option (List String)
  set : Int
  out : List String

/-- The loop of _set_cond (lines 53-75) from index `i` on, `args` being
`argv[i], ..., argv[argc-1]`: the index at which it stops and the state then. -/
def set_cond_loop (env : Env) : List String → Int → CondState → Int × CondState
  | [], i, st => (i, st)
  | a :: rest, i, st =>
    if strncasecmp_eq a "Set" 3 then (i - 1, st)
    else if env.parse_option_end a = 0 ∧ strncasecmp_eq a "where" 5 then
      set_cond_loop env rest (i + 1) st
    else if env.parse_option_end a = 0 then
      set_cond_loop env rest (i + 1)
        { st with cluster_list := env.addto_char_list st.cluster_list a, set := 1 }
    else if strncasecmp_eq a "Format" 1 then
      set_cond_loop env rest (i + 1)
        (match st.format_list with
         | some fl =>
           { st with
             format_list := some (env.addto_char_list fl (str_from a (env.parse_option_end a))) }
         | none => st)
    else if strncasecmp_eq a "Names" 1 then
      set_cond_loop env rest (i + 1)
        { st with
          cluster_list :=
            env.addto_char_list st.cluster_list (str_from a (env.parse_option_end a)),
          set := 1 }
    else
      set_cond_loop env rest (i + 1)
        { st with out := st.out ++
            [" Unknown condition: " ++ a ++ "\nUse keyword set to modify value\n"] }

/-- The function _set_cond (lines 45-78): the cursor `*start` afterwards and
the state, whose `set` is the return value.  The cursor is never negative on
entry in this file. -/
def _set_cond (env : Env) (start : Int) (argv : List String) (cluster_list : List String)
    (format_list : Option (List String)) : Int × CondState :=
  set_cond_loop env (argv.drop start.toNat) start ⟨cluster_list, format_list, 0, []⟩

/-- The fields of acct_association_rec_t that _set_rec writes. -/
structure acct_association_rec_t where
  fairshare : Nat
  max_cpu_secs_per_job : Nat
  max_jobs : Nat
  max_nodes_per_job : Nat
  max_wall_duration_per_job : Nat

/-- What _set_rec works on: the record, the flag `set`, and what it printed. -/
structure RecState where
  assoc : acct_association_rec_t
  set : Int
  out : List String

/-- The loop of _set_rec (lines 87-130) from index `i` on, `args` being
`argv[i], ..., argv[argc-1]`. -/
def set_rec_loop (env : Env) : List String → Int → RecState → Int × RecState
  | [], i, st => (i, st)
  | a :: rest, i, st =>
    if strncasecmp_eq a "Where" 5 then (i - 1, st)
    else if env.parse_option_end a = 0 ∧ strncasecmp_eq a "set" 3 then
      set_rec_loop env rest (i + 1) st
    else if env.parse_option_end a = 0 then
      set_rec_loop env rest (i + 1)
        { st with out := st.out ++
            [" Bad format on " ++ a ++ ": End your option with an '=' sign\n"] }
    else if strncasecmp_eq a "FairShare" 1 then
      set_rec_loop env rest (i + 1)
        (match env.get_uint (str_from a (env.parse_option_end a)) "FairShare" with
         | some v => { st with assoc := { st.assoc with fairshare := v }, set := 1 }
         | none => st)
    else if strncasecmp_eq a "MaxJobs" 4 then
      set_rec_loop env rest (i + 1)
        (match env.get_uint (str_from a (env.parse_option_end a)) "MaxJobs" with
         | some v => { st with assoc := { st.assoc with max_jobs := v }, set := 1 }
         | none => st)
    else if strncasecmp_eq a "MaxNodes" 4 then
      set_rec_loop env rest (i + 1)
        (match env.get_uint (str_from a (env.parse_option_end a)) "MaxNodes" with
         | some v => { st with assoc := { st.assoc with max_nodes_per_job := v }, set := 1 }
         | none => st)
    else if strncasecmp_eq a "MaxWall" 4 then
      set_rec_loop env rest (i + 1)
        (if (env.time_str2mins (str_from a (env.parse_option_end a))) % 4294967296
            ≠ (NO_VAL : Int) then
           { st with
             assoc :=
               { st.assoc with
                 max_wall_duration_per_job :=
                   ((env.time_str2mins (str_from a (env.parse_option_end a))) %
                     4294967296).toNat },
             set := 1 }
         else { st with out := st.out ++ [" Bad MaxWall time format: " ++ a ++ "\n"] })
    else if strncasecmp_eq a "MaxCPUSecs" 4 then
      set_rec_loop env rest (i + 1)
        (match env.get_uint (str_from a (env.parse_option_end a)) "MaxCPUSecs" with
         | some v => { st with assoc := { st.assoc with max_cpu_secs_per_job := v }, set := 1 }
         | none => st)
    else
      set_rec_loop env rest (i + 1)
        { st with out := st.out ++
            [" Unknown option: " ++ a ++ "\n Use keyword 'where' to modify condition\n"] }

/-- The function _set_rec (lines 80-135): the cursor `*start` afterwards and
the state, whose `set` is the return value. -/
def _set_rec (env : Env) (start : Int) (argv : List String) (assoc : acct_association_rec_t) :
    Int × RecState :=
  set_rec_loop env (argv.drop start.toNat) start ⟨assoc, 0, []⟩

/-- The variables the scanning loop of sacctmgr_modify_cluster works on. -/
structure ModifyState where
  cluster_list : List String
  assoc : acct_association_rec_t
  cond_set : Int
  rec_set : Int
  out : List String

/-- The variables of sacctmgr_modify_cluster when the loop starts (lines 584-605). -/
def modify_start : ModifyState :=
  ⟨[], ⟨NO_VAL, NO_VAL, NO_VAL, NO_VAL, NO_VAL⟩, 0, 0, []⟩

/-- The body of the loop of sacctmgr_modify_cluster (lines 608-621) at cursor
`i`: the cursor when the body is done (before the `i++` of the loop) and
the variables. -/
def modify_body (env : Env) (argv : List String) (i : Int) (st : ModifyState) :
    Int × ModifyState :=
  if strncasecmp_eq (argv.getD i.toNat "") "Where" 5 then
    let r := _set_cond env (i + 1) argv st.cluster_list none
    (r.1, { st with cluster_list := r.2.cluster_list, out := st.out ++ r.2.out,
                    cond_set := if r.2.set ≠ 0 then 1 else st.cond_set })
  else if strncasecmp_eq (argv.getD i.toNat "") "Set" 3 then
    let r := _set_rec env (i + 1) argv st.assoc
    (r.1, { st with assoc := r.2.assoc, out := st.out ++ r.2.out,
                    rec_set := if r.2.set ≠ 0 then 1 else st.rec_set })
  else
    let r := _set_cond env i argv st.cluster_list none
    (r.1, { st with cluster_list := r.2.cluster_list, out := st.out ++ r.2.out,
                    cond_set := if r.2.set ≠ 0 then 1 else st.cond_set })

/-- The loop `for (i=0; i<argc; i++)` of sacctmgr_modify_cluster (lines 607-622)
from cursor `i` on, allowed `fuel` iterations: the cursor and the variables
when the loop is left, `none` when the iterations do not suffice. -/
def modify_loop (env : Env) (argv : List String) : Nat → Int → ModifyState →
    Option (Int × ModifyState)
  | fuel, i, st =>
    if i < (argv.length : Int) then
      match fuel with
      | 0 => none
      | fuel + 1 =>
        modify_loop env argv fuel ((modify_body env argv i st).1 + 1)
          (modify_body env argv i st).2
    else some (i, st)

/-- What sacctmgr_delete_cluster does: its status, the cluster list it hands to
acct_storage_g_remove_clusters when it calls it, the argument of
acct_storage_g_commit when it calls it, and what it printed. -/
structure DeleteResult where
  rc : Int
  removal : Option (List String)
  commit : Option Bool
  out : List String

/-- The function sacctmgr_delete_cluster (lines 714-766). -/
def sacctmgr_delete_cluster (env : Env) (argv : List String) : DeleteResult :=
  let r := _set_cond env 0 argv [] none
  if r.2.set = 0 then
    ⟨SLURM_ERROR, none, none,
      r.2.out ++ [" No conditions given to remove, not executing.\n"]⟩
  else if r.2.cluster_list.length = 0 then
    ⟨SLURM_SUCCESS, none, none, r.2.out⟩
  else
    match env.acct_storage_g_remove_clusters r.2.cluster_list with
    | some ret_list =>
      if ret_list.length ≠ 0 then
        ⟨SLURM_SUCCESS, some r.2.cluster_list,
          some (env.commit_check "Would you like to commit changes?"),
          r.2.out ++ [" Deleting clusters...\n"] ++ ret_list.map (fun o => "  " ++ o ++ "\n") ++
            (if env.commit_check "Would you like to commit changes?" then []
             else [" Changes Discarded\n"])⟩
      else ⟨SLURM_SUCCESS, some r.2.cluster_list, none, r.2.out ++ [" Nothing deleted\n"]⟩
    | none =>
      ⟨SLURM_ERROR, some r.2.cluster_list, none, r.2.out ++ [" Error with request\n"]⟩

/-- An argument that names a cluster for _set_cond: a bare token other than
"where", or a Names= option. -/
def names_cluster (env : Env) (a : String) : Bool :=
  (env.parse_option_end a = 0 && !strncasecmp_eq a "where" 5) ||
  (env.parse_option_end a ≠ 0 && strncasecmp_eq a "Names" 1)

/-- The arguments in front of the first "Set" keyword. -/
def before_set (argv : List String) : List String :=
  argv.takeWhile (fun a => !strncasecmp_eq a "Set" 3)

/-- Surroundings for the examples: an option ends behind its first "=", names
are added as they are, the storage removes every cluster it is asked to and
the user confirms. -/
def demo_env : Env where
  parse_option_end := fun a =>
    if a.toList.contains '=' then (a.toList.takeWhile (fun c => c != '=')).length + 1 else 0
  addto_char_list := fun l a => l ++ [a]
  get_uint := fun v _ => v.toNat?
  time_str2mins := fun _ => 4294967294
  acct_storage_g_remove_clusters := fun l => some l
  commit_check := fun _ => true

end Sacctmgr

namespace JobSubmitLua

/-! ## Lemmas on the helpers -/

theorem adjust_results_one (results : List LuaValue) :
    adjust_results 1 results = [results.headD .nil] := by
  cases results <;> simp [adjust_results]

theorem update_jobs_some (env : Env) (l : lua_State) (a b c : Nat) (d : Bool)
    (m : Option String) (lg : List LogEntry) (tr : List Event) :
    slurm_lua_update_jobs_global env ⟨some l, a, b, c, d, m, lg, tr⟩ = .ok
      ⟨some { l with globals := fun name =>
                      if b < env.last_job_update ∧ name = JOBS_GLOBAL
                      then .table (.jobs env.last_job_update) else l.globals name },
        a, if b < env.last_job_update then env.now else b, c, d, m, lg,
        tr ++ [.update_jobs_global (decide (b < env.last_job_update))]⟩ := by
  unfold slurm_lua_update_jobs_global
  by_cases h : b < env.last_job_update <;> simp [h]

theorem update_resvs_some (env : Env) (l : lua_State) (a b c : Nat) (d : Bool)
    (m : Option String) (lg : List LogEntry) (tr : List Event) :
    slurm_lua_update_resvs_global env ⟨some l, a, b, c, d, m, lg, tr⟩ = .ok
      ⟨some { l with globals := fun name =>
                      if c < env.last_resv_update ∧ name = RESVS_GLOBAL
                      then .table (.resvs env.last_resv_update) else l.globals name },
        a, b, if c < env.last_resv_update then env.now else c, d, m, lg,
        tr ++ [.update_resvs_global (decide (c < env.last_resv_update))]⟩ := by
  unfold slurm_lua_update_resvs_global
  by_cases h : c < env.last_resv_update <;> simp [h]

theorem job_modify_called (env : Env) (jd : job_descriptor) (jp : job_record) (uid : Nat)
    (s : PluginState) (l : lua_State)
    (h_lock : s.lua_lock = false) (hL : s.L = some l)
    (hf : l.globals "slurm_job_modify" ≠ .nil) :
    ∃ st, job_modify env jd jp uid s = .ok ⟨status_of env
        (lua_call env (l.globals "slurm_job_modify") (modify_args jd jp uid)).outcome, none, st⟩ ∧
      st.lua_lock = false ∧ st.handle = some l.id ∧ st.user_msg = none ∧
      st.lua_script_last_loaded = s.lua_script_last_loaded ∧
      st.L.map lua_State.stack = some (call_residue env
        (lua_call env (l.globals "slurm_job_modify") (modify_args jd jp uid)).outcome ++ l.stack) ∧
      st.log = s.log ++ call_log env "job_modify"
          (lua_call env (l.globals "slurm_job_modify") (modify_args jd jp uid)).outcome ++
        discard_log (log_user_msg s.user_msg
          (lua_call env (l.globals "slurm_job_modify") (modify_args jd jp uid)).user_msg) ∧
      st.trace = s.trace ++ [.mutex_lock, .getglobal "slurm_job_modify",
        .update_jobs_global (decide (s.last_lua_jobs_update < env.last_job_update)),
        .update_resvs_global (decide (s.last_lua_resv_update < env.last_resv_update)),
        .push_job_desc jd, .push_job_rec jp, .push_partition_list jp.user_id uid,
        .pushnumber (uid_to_number uid), .stack_dump "job_modify, before lua_pcall",
        .pcall (l.globals "slurm_job_modify") (modify_args jd jp uid) 1,
        .stack_dump "job_modify, after lua_pcall", .get_user_msg, .mutex_unlock] := by
  obtain ⟨L, a, b, c, d, m, lg, tr⟩ := s
  simp only at h_lock hL
  subst h_lock hL
  generalize hr : lua_call env (l.globals "slurm_job_modify") (modify_args jd jp uid) = r
  simp only [modify_args] at hr
  obtain ⟨o, w, asg⟩ := r
  cases o with
  | error e =>
    cases hb : log_user_msg m w <;> cases e <;>
    simp [job_modify, slurm_mutex_lock, lua_getglobal, with_interp, lua_isnil, lua_State.top, hf,
      bind, Except.bind, slurm_mutex_unlock, pure, Except.pure, update_jobs_some, update_resvs_some,
      slurm_lua_push_job_desc, slurm_lua_push_job_rec, slurm_lua_push_partition_list, lua_pushnumber,
      slurm_lua_stack_dump, lua_pcall, hr, read_result, lua_isnumber, adjust_results_one,
      slurm_lua_get_user_msg, lua_pop, write_log, lua_tonumber, lua_tostring, LUA_ERRRUN, hb,
      status_of, call_log, call_residue, PluginState.handle, modify_args, LuaValue.to_string,
      discard_log]
  | ok results =>
    cases hb : log_user_msg m w <;>
    by_cases hn : (results.head?.getD .nil).isnumber env = true <;>
    simp [job_modify, slurm_mutex_lock, lua_getglobal, with_interp, lua_isnil, lua_State.top, hf,
      bind, Except.bind, slurm_mutex_unlock, pure, Except.pure, update_jobs_some, update_resvs_some,
      slurm_lua_push_job_desc, slurm_lua_push_job_rec, slurm_lua_push_partition_list, lua_pushnumber,
      slurm_lua_stack_dump, lua_pcall, hr, read_result, lua_isnumber, adjust_results_one,
      slurm_lua_get_user_msg, lua_pop, write_log, lua_tonumber, lua_tostring, LUA_ERRRUN, hb,
      status_of, call_log, call_residue, PluginState.handle, modify_args, hn, discard_log]

theorem job_submit_called (env : Env) (jd : job_descriptor) (uid : Nat) (err_msg : Option String)
    (s : PluginState) (l : lua_State)
    (h_lock : s.lua_lock = false) (hL : (slurm_lua_load_script env s).2.L = some l)
    (hf : l.globals "slurm_job_submit" ≠ .nil) :
    ∃ st, job_submit env jd uid err_msg s = .ok ⟨status_of env
        (lua_call env (l.globals "slurm_job_submit") (submit_args jd uid)).outcome,
        (log_user_msg s.user_msg
          (lua_call env (l.globals "slurm_job_submit") (submit_args jd uid)).user_msg).or err_msg,
        st⟩ ∧
      st.lua_lock = false ∧ st.handle = some l.id ∧ st.user_msg = none ∧
      st.lua_script_last_loaded = (slurm_lua_load_script env s).2.lua_script_last_loaded ∧
      st.L.map lua_State.stack = some (call_residue env
        (lua_call env (l.globals "slurm_job_submit") (submit_args jd uid)).outcome ++ l.stack) ∧
      st.log = s.log ++ call_log env "job_submit"
          (lua_call env (l.globals "slurm_job_submit") (submit_args jd uid)).outcome ∧
      st.trace = s.trace ++ [.mutex_lock, .load_script,
        .update_jobs_global (decide (s.last_lua_jobs_update < env.last_job_update)),
        .update_resvs_global (decide (s.last_lua_resv_update < env.last_resv_update)),
        .getglobal "slurm_job_submit",
        .update_jobs_global (decide ((if s.last_lua_jobs_update < env.last_job_update then env.now
          else s.last_lua_jobs_update) < env.last_job_update)),
        .update_resvs_global (decide ((if s.last_lua_resv_update < env.last_resv_update then env.now
          else s.last_lua_resv_update) < env.last_resv_update)),
        .push_job_desc jd, .push_partition_list jd.user_id uid,
        .pushnumber (uid_to_number uid), .stack_dump "job_submit, before lua_pcall",
        .pcall (l.globals "slurm_job_submit") (submit_args jd uid) 1,
        .stack_dump "job_submit, after lua_pcall", .get_user_msg, .mutex_unlock] := by
  obtain ⟨L, a, b, c, d, m, lg, tr⟩ := s
  simp only [slurm_lua_load_script] at h_lock hL
  subst h_lock
  generalize hr : lua_call env (l.globals "slurm_job_submit") (submit_args jd uid) = r
  simp only [submit_args] at hr
  obtain ⟨o, w, asg⟩ := r
  cases o with
  | error e =>
    cases hb : log_user_msg m w <;> cases e <;>
    simp [job_submit, slurm_mutex_lock, lua_getglobal, with_interp, lua_isnil, lua_State.top, hf,
      bind, Except.bind, slurm_mutex_unlock, pure, Except.pure, update_jobs_some, update_resvs_some,
      slurm_lua_push_job_desc, slurm_lua_push_partition_list, lua_pushnumber,
      slurm_lua_stack_dump, lua_pcall, hr, read_result, lua_isnumber, adjust_results_one,
      slurm_lua_get_user_msg, lua_pop, write_log, lua_tonumber, lua_tostring, LUA_ERRRUN, hb,
      status_of, call_log, call_residue, PluginState.handle, submit_args, LuaValue.to_string,
      slurm_lua_load_script, hL, JOBS_GLOBAL, RESVS_GLOBAL]
  | ok results =>
    cases hb : log_user_msg m w <;>
    by_cases hn : (results.head?.getD .nil).isnumber env = true <;>
    simp [job_submit, slurm_mutex_lock, lua_getglobal, with_interp, lua_isnil, lua_State.top, hf,
      bind, Except.bind, slurm_mutex_unlock, pure, Except.pure, update_jobs_some, update_resvs_some,
      slurm_lua_push_job_desc, slurm_lua_push_partition_list, lua_pushnumber,
      slurm_lua_stack_dump, lua_pcall, hr, read_result, lua_isnumber, adjust_results_one,
      slurm_lua_get_user_msg, lua_pop, write_log, lua_tonumber, lua_tostring, LUA_ERRRUN, hb,
      status_of, call_log, call_residue, PluginState.handle, submit_args, hn,
      slurm_lua_load_script, hL, JOBS_GLOBAL, RESVS_GLOBAL]

theorem job_submit_nil (env : Env) (jd : job_descriptor) (uid : Nat) (err_msg : Option String)
    (s : PluginState) (l : lua_State)
    (h_lock : s.lua_lock = false) (hL : (slurm_lua_load_script env s).2.L = some l)
    (hf : l.globals "slurm_job_submit" = .nil) :
    ∃ st, job_submit env jd uid err_msg s = .ok ⟨SLURM_ERROR, err_msg, st⟩ ∧
      st.lua_lock = false ∧ st.handle = some l.id ∧ st.user_msg = s.user_msg ∧
      st.L.map lua_State.stack = some (.nil :: l.stack) ∧
      st.log = s.log ∧
      st.trace = s.trace ++ [.mutex_lock, .load_script,
        .update_jobs_global (decide (s.last_lua_jobs_update < env.last_job_update)),
        .update_resvs_global (decide (s.last_lua_resv_update < env.last_resv_update)),
        .getglobal "slurm_job_submit", .mutex_unlock] := by
  obtain ⟨L, a, b, c, d, m, lg, tr⟩ := s
  simp only [slurm_lua_load_script] at h_lock hL
  subst h_lock
  simp [job_submit, slurm_mutex_lock, lua_getglobal, with_interp, lua_isnil, lua_State.top, hf,
    bind, Except.bind, slurm_mutex_unlock, pure, Except.pure, update_jobs_some, update_resvs_some,
    PluginState.handle, slurm_lua_load_script, hL, JOBS_GLOBAL, RESVS_GLOBAL]

theorem job_modify_nil (env : Env) (jd : job_descriptor) (jp : job_record) (uid : Nat)
    (s : PluginState) (l : lua_State)
    (h_lock : s.lua_lock = false) (hL : s.L = some l)
    (hf : l.globals "slurm_job_modify" = .nil) :
    ∃ st, job_modify env jd jp uid s = .ok ⟨SLURM_ERROR, none, st⟩ ∧
      st.lua_lock = false ∧ st.handle = some l.id ∧ st.user_msg = s.user_msg ∧
      st.L.map lua_State.stack = some (.nil :: l.stack) ∧
      st.log = s.log ∧
      st.trace = s.trace ++ [.mutex_lock, .getglobal "slurm_job_modify", .mutex_unlock] := by
  obtain ⟨L, a, b, c, d, m, lg, tr⟩ := s
  simp only at h_lock hL
  subst h_lock hL
  simp [job_modify, slurm_mutex_lock, lua_getglobal, with_interp, lua_isnil, lua_State.top, hf,
    bind, Except.bind, slurm_mutex_unlock, pure, Except.pure, PluginState.handle]

theorem job_submit_null (env : Env) (jd : job_descriptor) (uid : Nat) (err_msg : Option String)
    (s : PluginState) (h_lock : s.lua_lock = false)
    (hL : (slurm_lua_load_script env s).2.L = none) :
    job_submit env jd uid err_msg s = .error .null_interpreter := by
  obtain ⟨L, a, b, c, d, m, lg, tr⟩ := s
  simp only [slurm_lua_load_script] at h_lock hL
  subst h_lock
  by_cases hj : b < env.last_job_update <;> by_cases hr : c < env.last_resv_update <;>
  simp [job_submit, slurm_mutex_lock, lua_getglobal, with_interp, bind, Except.bind,
    slurm_lua_load_script, hL, slurm_lua_update_jobs_global, slurm_lua_update_resvs_global, hj, hr]

theorem job_modify_null (env : Env) (jd : job_descriptor) (jp : job_record) (uid : Nat)
    (s : PluginState) (h_lock : s.lua_lock = false) (hL : s.L = none) :
    job_modify env jd jp uid s = .error .null_interpreter := by
  obtain ⟨L, a, b, c, d, m, lg, tr⟩ := s
  simp only at h_lock hL
  subst h_lock hL
  simp [job_modify, slurm_mutex_lock, lua_getglobal, with_interp, bind, Except.bind]

theorem job_submit_locked (env : Env) (jd : job_descriptor) (uid : Nat) (err_msg : Option String)
    (s : PluginState) (h_lock : s.lua_lock = true) :
    job_submit env jd uid err_msg s = .error .would_block := by
  simp [job_submit, slurm_mutex_lock, h_lock, bind, Except.bind]

theorem job_modify_locked (env : Env) (jd : job_descriptor) (jp : job_record) (uid : Nat)
    (s : PluginState) (h_lock : s.lua_lock = true) :
    job_modify env jd jp uid s = .error .would_block := by
  simp [job_modify, slurm_mutex_lock, h_lock, bind, Except.bind]

theorem status_of_nonnumeric (env : Env) (results : List LuaValue)
    (h : (results.headD .nil).isnumber env = false) :
    status_of env (.ok results) = SLURM_SUCCESS := by
  show (if (results.headD .nil).isnumber env = true then _ else SLURM_SUCCESS) = SLURM_SUCCESS
  rw [if_neg (by rw [h]; decide)]

theorem double_to_int_intCast (env : Env) (n : Int) (h1 : INT_MIN ≤ n) (h2 : n ≤ INT_MAX) :
    double_to_int env (.finite (n : Rat)) = n := by
  simp [double_to_int, h1, h2]

theorem status_of_number (env : Env) (results : List LuaValue) (n : Int)
    (h1 : INT_MIN ≤ n) (h2 : n ≤ INT_MAX)
    (h : results.headD .nil = .number (.finite (n : Rat))) :
    status_of env (.ok results) = n := by
  show (if (results.headD .nil).isnumber env = true then
      double_to_int env (((results.headD .nil).to_number env).getD (.finite 0))
    else SLURM_SUCCESS) = n
  rw [h]
  simp [LuaValue.isnumber, LuaValue.to_number, double_to_int_intCast env n h1 h2]

/-! ## The claims -/

/-- C1. When the entry point exists and the interpreter call completes without a
runtime error, a returned value that is not numeric (neither a number nor a
string that reads as a number; no value at all counts as nil) makes the hook
return status 0, SLURM_SUCCESS.  Stated for job_submit and for job_modify. -/
theorem C1_non_numeric_return_is_success (env : Env) (jd : job_descriptor) (jp : job_record)
    (uid : Nat) (err_msg : Option String) (s : PluginState) (l : lua_State)
    (results : List LuaValue) (h_lock : s.lua_lock = false)
    (h_nn : (results.headD .nil).isnumber env = false) :
    ((slurm_lua_load_script env s).2.L = some l →
      l.globals "slurm_job_submit" ≠ .nil →
      (lua_call env (l.globals "slurm_job_submit") (submit_args jd uid)).outcome = .ok results →
      (job_submit env jd uid err_msg s).map HookResult.rc = .ok 0 ∧ SLURM_SUCCESS = 0) ∧
    (s.L = some l →
      l.globals "slurm_job_modify" ≠ .nil →
      (lua_call env (l.globals "slurm_job_modify") (modify_args jd jp uid)).outcome = .ok results →
      (job_modify env jd jp uid s).map HookResult.rc = .ok 0 ∧ SLURM_SUCCESS = 0) := by
  constructor
  · intro hL hf hcall
    obtain ⟨st, h, -⟩ := job_submit_called env jd uid err_msg s l h_lock hL hf
    rw [h, hcall, status_of_nonnumeric env results h_nn]
    exact ⟨rfl, rfl⟩
  · intro hL hf hcall
    obtain ⟨st, h, -⟩ := job_modify_called env jd jp uid s l h_lock hL hf
    rw [h, hcall, status_of_nonnumeric env results h_nn]
    exact ⟨rfl, rfl⟩

/-- C1, at a script that returns nothing and at one that returns a string. -/
theorem C1_non_numeric_return_is_success_witness :
    (job_submit (demo_env ⟨.ok [], none, []⟩) demo_job_desc 1000 none demo_state).map
        HookResult.rc = .ok 0 ∧
    (job_modify (demo_env ⟨.ok [.string "done"], none, []⟩) demo_job_desc demo_job_rec 1000
        demo_state).map HookResult.rc = .ok 0 :=
  ⟨((C1_non_numeric_return_is_success (demo_env ⟨.ok [], none, []⟩) demo_job_desc demo_job_rec
      1000 none demo_state demo_interp [] rfl rfl).1 rfl (by decide) rfl).1,
   ((C1_non_numeric_return_is_success (demo_env ⟨.ok [.string "done"], none, []⟩) demo_job_desc
      demo_job_rec 1000 none demo_state demo_interp [.string "done"] rfl rfl).2 rfl (by decide)
      rfl).1⟩

/-- C2. When the entry point exists and the script returns the number n without
a runtime error, n an integer in the range of a C int, the hook returns exactly
n.  Stated for job_submit and for job_modify; further return values may follow n. -/
theorem C2_numeric_return_is_status (env : Env) (jd : job_descriptor) (jp : job_record)
    (uid : Nat) (err_msg : Option String) (s : PluginState) (l : lua_State)
    (results : List LuaValue) (n : Int) (h_lock : s.lua_lock = false)
    (h_min : INT_MIN ≤ n) (h_max : n ≤ INT_MAX)
    (h_n : results.headD .nil = .number (.finite (n : Rat))) :
    ((slurm_lua_load_script env s).2.L = some l →
      l.globals "slurm_job_submit" ≠ .nil →
      (lua_call env (l.globals "slurm_job_submit") (submit_args jd uid)).outcome = .ok results →
      (job_submit env jd uid err_msg s).map HookResult.rc = .ok n) ∧
    (s.L = some l →
      l.globals "slurm_job_modify" ≠ .nil →
      (lua_call env (l.globals "slurm_job_modify") (modify_args jd jp uid)).outcome = .ok results →
      (job_modify env jd jp uid s).map HookResult.rc = .ok n) := by
  constructor
  · intro hL hf hcall
    obtain ⟨st, h, -⟩ := job_submit_called env jd uid err_msg s l h_lock hL hf
    rw [h, hcall, status_of_number env results n h_min h_max h_n]
    rfl
  · intro hL hf hcall
    obtain ⟨st, h, -⟩ := job_modify_called env jd jp uid s l h_lock hL hf
    rw [h, hcall, status_of_number env results n h_min h_max h_n]
    rfl

/-- C2, at a script that returns 2035 on submit and -7 (with a second value) on modify. -/
theorem C2_numeric_return_is_status_witness :
    (job_submit (demo_env ⟨.ok [.number (.finite ((2035 : Int) : Rat))], none, []⟩)
        demo_job_desc 1000 none demo_state).map HookResult.rc = .ok 2035 ∧
    (job_modify (demo_env ⟨.ok [.number (.finite ((-7 : Int) : Rat)), .boolean true], none, []⟩)
        demo_job_desc demo_job_rec 1000 demo_state).map HookResult.rc = .ok (-7) :=
  ⟨(C2_numeric_return_is_status (demo_env ⟨.ok [.number (.finite ((2035 : Int) : Rat))], none, []⟩)
      demo_job_desc demo_job_rec 1000 none demo_state demo_interp
      [.number (.finite ((2035 : Int) : Rat))] 2035 rfl (by decide) (by decide) rfl).1
      rfl (by decide) rfl,
   (C2_numeric_return_is_status
      (demo_env ⟨.ok [.number (.finite ((-7 : Int) : Rat)), .boolean true], none, []⟩)
      demo_job_desc demo_job_rec 1000 none demo_state demo_interp
      [.number (.finite ((-7 : Int) : Rat)), .boolean true] (-7) rfl (by decide) (by decide) rfl).2
      rfl (by decide) rfl⟩

theorem lua_call_silent_outcome (env : Env) (f : LuaValue) (args : List LuaValue) :
    (lua_call env.silent f args).outcome = (lua_call env f args).outcome := by
  cases f <;> rfl

theorem status_of_silent (env : Env) (o : Except LuaValue (List LuaValue)) :
    status_of env.silent o = status_of env o := by
  cases o with
  | error e => rfl
  | ok results =>
    show (if (results.headD .nil).isnumber env.silent = true then
        double_to_int env.silent (((results.headD .nil).to_number env.silent).getD (.finite 0))
      else SLURM_SUCCESS) = (if (results.headD .nil).isnumber env = true then
        double_to_int env (((results.headD .nil).to_number env).getD (.finite 0))
      else SLURM_SUCCESS)
    have h1 : ∀ v : LuaValue, v.to_number env.silent = v.to_number env := by
      intro v; cases v <;> rfl
    have h2 : ∀ x, double_to_int env.silent x = double_to_int env x := by
      intro x; cases x <;> rfl
    simp only [LuaValue.isnumber, h1, h2]

/-- C3. A job_modify call hands back no message, whatever the script wrote to
the user-message side channel: the result carries none; the status code is the
one the call would give with an empty side channel and a script that writes
nothing; and when the script was called and the side channel then holds a
message, that message is removed from the side channel and the discard
diagnostic is in the log. -/
theorem C3_modify_discards_user_message (env : Env) (jd : job_descriptor) (jp : job_record)
    (uid : Nat) (s : PluginState) :
    (∀ r, job_modify env jd jp uid s = .ok r → r.err_msg = none) ∧
    (job_modify env jd jp uid s).map HookResult.rc =
      (job_modify env.silent jd jp uid { s with user_msg := none }).map HookResult.rc ∧
    (∀ l m, s.lua_lock = false → s.L = some l → l.globals "slurm_job_modify" ≠ .nil →
      log_user_msg s.user_msg
        (lua_call env (l.globals "slurm_job_modify") (modify_args jd jp uid)).user_msg = some m →
      ∃ r, job_modify env jd jp uid s = .ok r ∧ r.err_msg = none ∧
        LogEntry.error (discard_text m) ∈ r.state.log ∧ r.state.user_msg = none) := by
  refine ⟨?_, ?_, ?_⟩
  · intro r hr
    cases h_lock : s.lua_lock with
    | true => rw [job_modify_locked env jd jp uid s h_lock] at hr; cases hr
    | false =>
      cases hL : s.L with
      | none => rw [job_modify_null env jd jp uid s h_lock hL] at hr; cases hr
      | some l =>
        by_cases hf : l.globals "slurm_job_modify" = .nil
        · obtain ⟨st, h, -⟩ := job_modify_nil env jd jp uid s l h_lock hL hf
          rw [h] at hr; cases hr; rfl
        · obtain ⟨st, h, -⟩ := job_modify_called env jd jp uid s l h_lock hL hf
          rw [h] at hr; cases hr; rfl
  · obtain ⟨L, a, b, c, d, m, lg, tr⟩ := s
    cases d with
    | true =>
      rw [job_modify_locked env jd jp uid _ rfl, job_modify_locked env.silent jd jp uid _ rfl]
    | false =>
      cases L with
      | none =>
        rw [job_modify_null env jd jp uid _ rfl rfl,
          job_modify_null env.silent jd jp uid _ rfl rfl]
      | some l =>
        by_cases hf : l.globals "slurm_job_modify" = .nil
        · obtain ⟨st, h, -⟩ :=
            job_modify_nil env jd jp uid ⟨some l, a, b, c, false, m, lg, tr⟩ l rfl rfl hf
          obtain ⟨st2, h2, -⟩ :=
            job_modify_nil env.silent jd jp uid ⟨some l, a, b, c, false, none, lg, tr⟩ l rfl rfl hf
          rw [h, h2]; rfl
        · obtain ⟨st, h, -⟩ :=
            job_modify_called env jd jp uid ⟨some l, a, b, c, false, m, lg, tr⟩ l rfl rfl hf
          obtain ⟨st2, h2, -⟩ :=
            job_modify_called env.silent jd jp uid ⟨some l, a, b, c, false, none, lg, tr⟩ l
              rfl rfl hf
          rw [h, h2, lua_call_silent_outcome, status_of_silent]; rfl
  · intro l m h_lock hL hf hm
    obtain ⟨st, h, -, -, hu, -, -, hlog, -⟩ := job_modify_called env jd jp uid s l h_lock hL hf
    refine ⟨_, h, rfl, ?_, hu⟩
    show LogEntry.error (discard_text m) ∈ st.log
    rw [hlog, hm]
    simp [discard_log]

/-- C3, at a script that writes a message and returns 0. -/
theorem C3_modify_discards_user_message_witness :
    ∃ r, job_modify (demo_env ⟨.ok [.number (.finite 0)], some "held for review", []⟩)
        demo_job_desc demo_job_rec 1000 demo_state = .ok r ∧ r.err_msg = none ∧
      LogEntry.error (discard_text "held for review") ∈ r.state.log ∧ r.state.user_msg = none :=
  (C3_modify_discards_user_message
    (demo_env ⟨.ok [.number (.finite 0)], some "held for review", []⟩)
    demo_job_desc demo_job_rec 1000 demo_state).2.2 demo_interp "held for review" rfl rfl
    (by decide) rfl

/-- C4. On the submit path, when the entry point exists, the script returns 0
and the user-message side channel holds m when the script is done (the script
set m on an empty side channel), job_submit returns status 0 and the caller's
message slot holds exactly m. -/
theorem C4_submit_carries_user_message (env : Env) (jd : job_descriptor) (uid : Nat)
    (err_msg : Option String) (s : PluginState) (l : lua_State) (results : List LuaValue)
    (m : String) (h_lock : s.lua_lock = false)
    (hL : (slurm_lua_load_script env s).2.L = some l)
    (hf : l.globals "slurm_job_submit" ≠ .nil)
    (h_call : (lua_call env (l.globals "slurm_job_submit") (submit_args jd uid)).outcome =
      .ok results)
    (h_zero : results.headD .nil = .number (.finite ((0 : Int) : Rat)))
    (h_msg : log_user_msg s.user_msg
      (lua_call env (l.globals "slurm_job_submit") (submit_args jd uid)).user_msg = some m) :
    ∃ r, job_submit env jd uid err_msg s = .ok r ∧ r.rc = 0 ∧ r.err_msg = some m := by
  obtain ⟨st, h, -⟩ := job_submit_called env jd uid err_msg s l h_lock hL hf
  refine ⟨_, h, ?_, ?_⟩
  · show status_of env _ = 0
    rw [h_call, status_of_number env results 0 (by decide) (by decide) h_zero]
  · show (log_user_msg _ _).or err_msg = some m
    rw [h_msg]; rfl

/-- C4, at a script that sets a message on an empty side channel and returns 0,
with a caller whose message slot held something else. -/
theorem C4_submit_carries_user_message_witness :
    ∃ r, job_submit
        (demo_env ⟨.ok [.number (.finite ((0 : Int) : Rat))], some "held for review", []⟩)
        demo_job_desc 1000 (some "old") demo_state = .ok r ∧ r.rc = 0 ∧
      r.err_msg = some "held for review" :=
  C4_submit_carries_user_message
    (demo_env ⟨.ok [.number (.finite ((0 : Int) : Rat))], some "held for review", []⟩)
    demo_job_desc 1000 (some "old") demo_state demo_interp
    [.number (.finite ((0 : Int) : Rat))] "held for review" rfl rfl (by decide) rfl rfl rfl

/-- C5, as stated, fails: with the entry point absent both hooks return
SLURM_ERROR, and that is the very status they return when the script raises a
runtime error, so the two statuses are not different. -/
theorem C5_counterexample :
    demo_interp_no_entry.globals "slurm_job_submit" = .nil ∧
    demo_interp_no_entry.globals "slurm_job_modify" = .nil ∧
    ¬ ((job_submit (demo_env ⟨.ok [], none, []⟩) demo_job_desc 1000 none
          demo_state_no_entry).map HookResult.rc ≠
       (job_submit (demo_env ⟨.error (.string "boom"), none, []⟩) demo_job_desc 1000 none
          demo_state).map HookResult.rc) ∧
    ¬ ((job_modify (demo_env ⟨.ok [], none, []⟩) demo_job_desc demo_job_rec 1000
          demo_state_no_entry).map HookResult.rc ≠
       (job_modify (demo_env ⟨.error (.string "boom"), none, []⟩) demo_job_desc demo_job_rec
          1000 demo_state).map HookResult.rc) := by
  refine ⟨rfl, rfl, ?_, ?_⟩
  · obtain ⟨st, h, -⟩ := job_submit_nil (demo_env ⟨.ok [], none, []⟩) demo_job_desc 1000 none
      demo_state_no_entry demo_interp_no_entry rfl rfl rfl
    obtain ⟨st2, h2, -⟩ := job_submit_called (demo_env ⟨.error (.string "boom"), none, []⟩)
      demo_job_desc 1000 none demo_state demo_interp rfl rfl (by decide)
    rw [h, h2]
    exact fun hne => hne rfl
  · obtain ⟨st, h, -⟩ := job_modify_nil (demo_env ⟨.ok [], none, []⟩) demo_job_desc demo_job_rec
      1000 demo_state_no_entry demo_interp_no_entry rfl rfl rfl
    obtain ⟨st2, h2, -⟩ := job_modify_called (demo_env ⟨.error (.string "boom"), none, []⟩)
      demo_job_desc demo_job_rec 1000 demo_state demo_interp rfl rfl (by decide)
    rw [h, h2]
    exact fun hne => hne rfl

/-- C5, amended. When the entry-point global is nil at call time, job_submit and
job_modify return without calling the interpreter (the record of interpreter
calls is as it was) and the status is SLURM_ERROR; a runtime error raised by
the script gives the same status SLURM_ERROR. -/
theorem C5_missing_entry_point_returns_error (env : Env) (jd : job_descriptor)
    (jp : job_record) (uid : Nat) (err_msg : Option String) (s : PluginState) (l : lua_State)
    (h_lock : s.lua_lock = false) :
    ((slurm_lua_load_script env s).2.L = some l →
      (l.globals "slurm_job_submit" = .nil →
        ∃ r, job_submit env jd uid err_msg s = .ok r ∧ r.rc = SLURM_ERROR ∧
          r.state.trace.filter Event.is_pcall = s.trace.filter Event.is_pcall) ∧
      (l.globals "slurm_job_submit" ≠ .nil →
        ∀ e, (lua_call env (l.globals "slurm_job_submit") (submit_args jd uid)).outcome =
            .error e →
          ∃ r, job_submit env jd uid err_msg s = .ok r ∧ r.rc = SLURM_ERROR)) ∧
    (s.L = some l →
      (l.globals "slurm_job_modify" = .nil →
        ∃ r, job_modify env jd jp uid s = .ok r ∧ r.rc = SLURM_ERROR ∧
          r.state.trace.filter Event.is_pcall = s.trace.filter Event.is_pcall) ∧
      (l.globals "slurm_job_modify" ≠ .nil →
        ∀ e, (lua_call env (l.globals "slurm_job_modify") (modify_args jd jp uid)).outcome =
            .error e →
          ∃ r, job_modify env jd jp uid s = .ok r ∧ r.rc = SLURM_ERROR)) := by
  refine ⟨fun hL => ⟨fun hf => ?_, fun hf e he => ?_⟩, fun hL => ⟨fun hf => ?_, fun hf e he => ?_⟩⟩
  · obtain ⟨st, h, -, -, -, -, -, htr⟩ := job_submit_nil env jd uid err_msg s l h_lock hL hf
    refine ⟨_, h, rfl, ?_⟩
    show st.trace.filter Event.is_pcall = _
    rw [htr]
    simp [Event.is_pcall]
  · obtain ⟨st, h, -⟩ := job_submit_called env jd uid err_msg s l h_lock hL hf
    refine ⟨_, h, ?_⟩
    show status_of env _ = SLURM_ERROR
    rw [he]; rfl
  · obtain ⟨st, h, -, -, -, -, -, htr⟩ := job_modify_nil env jd jp uid s l h_lock hL hf
    refine ⟨_, h, rfl, ?_⟩
    show st.trace.filter Event.is_pcall = _
    rw [htr]
    simp [Event.is_pcall]
  · obtain ⟨st, h, -⟩ := job_modify_called env jd jp uid s l h_lock hL hf
    refine ⟨_, h, ?_⟩
    show status_of env _ = SLURM_ERROR
    rw [he]; rfl

/-- C5 amended, at a script without entry points. -/
theorem C5_missing_entry_point_returns_error_witness :
    (∃ r, job_submit (demo_env ⟨.ok [], none, []⟩) demo_job_desc 1000 none demo_state_no_entry =
        .ok r ∧ r.rc = SLURM_ERROR ∧
      r.state.trace.filter Event.is_pcall = demo_state_no_entry.trace.filter Event.is_pcall) ∧
    (∃ r, job_modify (demo_env ⟨.ok [], none, []⟩) demo_job_desc demo_job_rec 1000
        demo_state_no_entry = .ok r ∧ r.rc = SLURM_ERROR ∧
      r.state.trace.filter Event.is_pcall = demo_state_no_entry.trace.filter Event.is_pcall) :=
  ⟨((C5_missing_entry_point_returns_error (demo_env ⟨.ok [], none, []⟩) demo_job_desc
      demo_job_rec 1000 none demo_state_no_entry demo_interp_no_entry rfl).1 rfl).1 rfl,
   ((C5_missing_entry_point_returns_error (demo_env ⟨.ok [], none, []⟩) demo_job_desc
      demo_job_rec 1000 none demo_state_no_entry demo_interp_no_entry rfl).2 rfl).1 rfl⟩

/-- C6. When the interpreter call fails with a runtime error, job_submit and
job_modify return SLURM_ERROR, which is not 0, and the interpreter handle they
leave is the handle the call ran on: for job_submit the handle the reload check
at the start of the hook left, for job_modify the handle at entry.  No reload
check follows the failure: job_submit has made its single check before the
call, job_modify has made none. -/
theorem C6_runtime_error_keeps_interpreter (env : Env) (jd : job_descriptor)
    (jp : job_record) (uid : Nat) (err_msg : Option String) (s : PluginState) (l : lua_State)
    (e : LuaValue) (h_lock : s.lua_lock = false) :
    ((slurm_lua_load_script env s).2.L = some l →
      l.globals "slurm_job_submit" ≠ .nil →
      (lua_call env (l.globals "slurm_job_submit") (submit_args jd uid)).outcome = .error e →
      ∃ r, job_submit env jd uid err_msg s = .ok r ∧ r.rc = SLURM_ERROR ∧ r.rc ≠ 0 ∧
        r.state.handle = (slurm_lua_load_script env s).2.handle ∧
        r.state.handle = some l.id ∧
        r.state.lua_script_last_loaded =
          (slurm_lua_load_script env s).2.lua_script_last_loaded ∧
        r.state.trace.count .load_script = s.trace.count .load_script + 1 ∧
        (r.state.trace.drop (s.trace.length + 2)).count .load_script = 0) ∧
    (s.L = some l →
      l.globals "slurm_job_modify" ≠ .nil →
      (lua_call env (l.globals "slurm_job_modify") (modify_args jd jp uid)).outcome = .error e →
      ∃ r, job_modify env jd jp uid s = .ok r ∧ r.rc = SLURM_ERROR ∧ r.rc ≠ 0 ∧
        r.state.handle = s.handle ∧
        r.state.handle = some l.id ∧
        r.state.lua_script_last_loaded = s.lua_script_last_loaded ∧
        r.state.trace.count .load_script = s.trace.count .load_script) := by
  constructor
  · intro hL hf he
    obtain ⟨st, h, -, hh, -, hll, -, -, htr⟩ :=
      job_submit_called env jd uid err_msg s l h_lock hL hf
    have hrc : status_of env
        (lua_call env (l.globals "slurm_job_submit") (submit_args jd uid)).outcome =
        SLURM_ERROR := by rw [he]; rfl
    refine ⟨_, h, hrc, ?_, ?_, hh, hll, ?_, ?_⟩
    · show status_of env _ ≠ 0
      rw [hrc]; decide
    · show st.handle = _
      rw [hh, PluginState.handle, hL]; rfl
    · show st.trace.count .load_script = _
      rw [htr]
      simp [List.count_append, List.count_cons]
    · show (st.trace.drop (s.trace.length + 2)).count .load_script = 0
      rw [htr, List.drop_append]
      simp [List.count_cons]
  · intro hL hf he
    obtain ⟨st, h, -, hh, -, hll, -, -, htr⟩ := job_modify_called env jd jp uid s l h_lock hL hf
    have hrc : status_of env
        (lua_call env (l.globals "slurm_job_modify") (modify_args jd jp uid)).outcome =
        SLURM_ERROR := by rw [he]; rfl
    refine ⟨_, h, hrc, ?_, ?_, hh, hll, ?_⟩
    · show status_of env _ ≠ 0
      rw [hrc]; decide
    · show st.handle = _
      rw [hh, PluginState.handle, hL]; rfl
    · show st.trace.count .load_script = _
      rw [htr]
      simp [List.count_append, List.count_cons]

/-- C6, at a script that raises the error "boom". -/
theorem C6_runtime_error_keeps_interpreter_witness :
    (∃ r, job_submit (demo_env ⟨.error (.string "boom"), none, []⟩) demo_job_desc 1000 none
        demo_state = .ok r ∧ r.rc = SLURM_ERROR ∧ r.state.handle = some 1) ∧
    (∃ r, job_modify (demo_env ⟨.error (.string "boom"), none, []⟩) demo_job_desc demo_job_rec
        1000 demo_state = .ok r ∧ r.rc = SLURM_ERROR ∧ r.state.handle = some 1) :=
  by
  constructor
  · obtain ⟨r, h, hrc, _, _, hh, _⟩ := (C6_runtime_error_keeps_interpreter
      (demo_env ⟨.error (.string "boom"), none, []⟩) demo_job_desc demo_job_rec 1000 none
      demo_state demo_interp (.string "boom") rfl).1 rfl (by decide) rfl
    exact ⟨r, h, hrc, hh⟩
  · obtain ⟨r, h, hrc, _, _, hh, _⟩ := (C6_runtime_error_keeps_interpreter
      (demo_env ⟨.error (.string "boom"), none, []⟩) demo_job_desc demo_job_rec 1000 none
      demo_state demo_interp (.string "boom") rfl).2 rfl (by decide) rfl
    exact ⟨r, h, hrc, hh⟩

/-- C7. With the hook lock modelled as state: a call of job_submit or job_modify
that starts with the lock free and an interpreter in place returns on every
path (entry point missing, runtime error, numeric return, non-numeric return);
taking the lock is the first thing it does, releasing it the last, every other
call it makes lies between the two, and the lock is free when it returns. -/
theorem C7_lock_released_on_every_path (env : Env) (jd : job_descriptor) (jp : job_record)
    (uid : Nat) (err_msg : Option String) (s : PluginState) (l : lua_State)
    (h_lock : s.lua_lock = false) :
    ((slurm_lua_load_script env s).2.L = some l →
      ∃ r mid, job_submit env jd uid err_msg s = .ok r ∧
        r.state.trace = s.trace ++ (.mutex_lock :: (mid ++ [.mutex_unlock])) ∧
        .mutex_lock ∉ mid ∧ .mutex_unlock ∉ mid ∧ r.state.lua_lock = false) ∧
    (s.L = some l →
      ∃ r mid, job_modify env jd jp uid s = .ok r ∧
        r.state.trace = s.trace ++ (.mutex_lock :: (mid ++ [.mutex_unlock])) ∧
        .mutex_lock ∉ mid ∧ .mutex_unlock ∉ mid ∧ r.state.lua_lock = false) := by
  constructor
  · intro hL
    by_cases hf : l.globals "slurm_job_submit" = .nil
    · obtain ⟨st, h, hlk, -, -, -, -, htr⟩ := job_submit_nil env jd uid err_msg s l h_lock hL hf
      refine ⟨_, [.load_script,
          .update_jobs_global (decide (s.last_lua_jobs_update < env.last_job_update)),
          .update_resvs_global (decide (s.last_lua_resv_update < env.last_resv_update)),
          .getglobal "slurm_job_submit"], h, ?_, ?_, ?_, hlk⟩
      · show st.trace = _
        rw [htr]; rfl
      · simp
      · simp
    · obtain ⟨st, h, hlk, -, -, -, -, -, htr⟩ :=
        job_submit_called env jd uid err_msg s l h_lock hL hf
      refine ⟨_, [.load_script,
          .update_jobs_global (decide (s.last_lua_jobs_update < env.last_job_update)),
          .update_resvs_global (decide (s.last_lua_resv_update < env.last_resv_update)),
          .getglobal "slurm_job_submit",
          .update_jobs_global (decide ((if s.last_lua_jobs_update < env.last_job_update
            then env.now else s.last_lua_jobs_update) < env.last_job_update)),
          .update_resvs_global (decide ((if s.last_lua_resv_update < env.last_resv_update
            then env.now else s.last_lua_resv_update) < env.last_resv_update)),
          .push_job_desc jd, .push_partition_list jd.user_id uid,
          .pushnumber (uid_to_number uid), .stack_dump "job_submit, before lua_pcall",
          .pcall (l.globals "slurm_job_submit") (submit_args jd uid) 1,
          .stack_dump "job_submit, after lua_pcall", .get_user_msg], h, ?_, ?_, ?_, hlk⟩
      · show st.trace = _
        rw [htr]; rfl
      · simp
      · simp
  · intro hL
    by_cases hf : l.globals "slurm_job_modify" = .nil
    · obtain ⟨st, h, hlk, -, -, -, -, htr⟩ := job_modify_nil env jd jp uid s l h_lock hL hf
      refine ⟨_, [.getglobal "slurm_job_modify"], h, ?_, ?_, ?_, hlk⟩
      · show st.trace = _
        rw [htr]; rfl
      · simp
      · simp
    · obtain ⟨st, h, hlk, -, -, -, -, -, htr⟩ := job_modify_called env jd jp uid s l h_lock hL hf
      refine ⟨_, [.getglobal "slurm_job_modify",
          .update_jobs_global (decide (s.last_lua_jobs_update < env.last_job_update)),
          .update_resvs_global (decide (s.last_lua_resv_update < env.last_resv_update)),
          .push_job_desc jd, .push_job_rec jp, .push_partition_list jp.user_id uid,
          .pushnumber (uid_to_number uid), .stack_dump "job_modify, before lua_pcall",
          .pcall (l.globals "slurm_job_modify") (modify_args jd jp uid) 1,
          .stack_dump "job_modify, after lua_pcall", .get_user_msg], h, ?_, ?_, ?_, hlk⟩
      · show st.trace = _
        rw [htr]; rfl
      · simp
      · simp

/-- C7, at a script that raises an error on submit and at one without entry
points on modify. -/
theorem C7_lock_released_on_every_path_witness :
    (∃ r mid, job_submit (demo_env ⟨.error (.string "boom"), none, []⟩) demo_job_desc 1000 none
        demo_state = .ok r ∧
      r.state.trace = demo_state.trace ++ (.mutex_lock :: (mid ++ [.mutex_unlock])) ∧
      .mutex_lock ∉ mid ∧ .mutex_unlock ∉ mid ∧ r.state.lua_lock = false) ∧
    (∃ r mid, job_modify (demo_env ⟨.ok [], none, []⟩) demo_job_desc demo_job_rec 1000
        demo_state_no_entry = .ok r ∧
      r.state.trace = demo_state_no_entry.trace ++ (.mutex_lock :: (mid ++ [.mutex_unlock])) ∧
      .mutex_lock ∉ mid ∧ .mutex_unlock ∉ mid ∧ r.state.lua_lock = false) :=
  ⟨(C7_lock_released_on_every_path (demo_env ⟨.error (.string "boom"), none, []⟩)
      demo_job_desc demo_job_rec 1000 none demo_state demo_interp rfl).1 rfl,
   (C7_lock_released_on_every_path (demo_env ⟨.ok [], none, []⟩)
      demo_job_desc demo_job_rec 1000 none demo_state_no_entry demo_interp_no_entry rfl).2 rfl⟩

/-- C8 fails on the code for job_modify.  Whatever the input, a job_modify call
that returns has made no call of slurm_lua_load_script (the record holds as
many reload checks after the call as before), while job_submit makes one right
after taking the lock.  At the example input the calls of job_modify are, in
order: lock, lua_getglobal, the two mirror refreshes, the four pushes, the
stack dump, lua_pcall, the stack dump, slurm_lua_get_user_msg, unlock. -/
theorem C8_job_modify_makes_no_reload_check (env : Env) (jd : job_descriptor)
    (jp : job_record) (uid : Nat) (err_msg : Option String) (s : PluginState) :
    (job_modify env jd jp uid s).map (fun r => r.state.trace.count .load_script) =
      (job_modify env jd jp uid s).map (fun _ => s.trace.count .load_script) ∧
    (job_submit env jd uid err_msg s).map (fun r => r.state.trace.take (s.trace.length + 2)) =
      (job_submit env jd uid err_msg s).map
        (fun _ => s.trace ++ [.mutex_lock, .load_script]) ∧
    (job_modify (demo_env ⟨.ok [.number (.finite 0)], none, []⟩) demo_job_desc demo_job_rec
        1000 demo_state).map (fun r => r.state.trace) =
      .ok [.mutex_lock, .getglobal "slurm_job_modify", .update_jobs_global false,
        .update_resvs_global false, .push_job_desc demo_job_desc, .push_job_rec demo_job_rec,
        .push_partition_list 1000 1000, .pushnumber (uid_to_number 1000),
        .stack_dump "job_modify, before lua_pcall",
        .pcall (.function 1) (modify_args demo_job_desc demo_job_rec 1000) 1,
        .stack_dump "job_modify, after lua_pcall", .get_user_msg, .mutex_unlock] := by
  refine ⟨?_, ?_, ?_⟩
  · obtain ⟨L, a, b, c, d, m, lg, tr⟩ := s
    cases d with
    | true => rw [job_modify_locked env jd jp uid _ rfl]; rfl
    | false =>
      cases L with
      | none => rw [job_modify_null env jd jp uid _ rfl rfl]; rfl
      | some l =>
        by_cases hf : l.globals "slurm_job_modify" = .nil
        · obtain ⟨st, h, -, -, -, -, -, htr⟩ :=
            job_modify_nil env jd jp uid ⟨some l, a, b, c, false, m, lg, tr⟩ l rfl rfl hf
          rw [h]
          show Except.ok (st.trace.count .load_script) = Except.ok _
          rw [htr]
          simp [List.count_append, List.count_cons]
        · obtain ⟨st, h, -, -, -, -, -, -, htr⟩ :=
            job_modify_called env jd jp uid ⟨some l, a, b, c, false, m, lg, tr⟩ l rfl rfl hf
          rw [h]
          show Except.ok (st.trace.count .load_script) = Except.ok _
          rw [htr]
          simp [List.count_append, List.count_cons]
  · cases h_lock : s.lua_lock with
    | true => rw [job_submit_locked env jd uid err_msg s h_lock]; rfl
    | false =>
      cases hL : (slurm_lua_load_script env s).2.L with
      | none => rw [job_submit_null env jd uid err_msg s h_lock hL]; rfl
      | some l =>
        by_cases hf : l.globals "slurm_job_submit" = .nil
        · obtain ⟨st, h, -, -, -, -, -, htr⟩ :=
            job_submit_nil env jd uid err_msg s l h_lock hL hf
          rw [h]
          show Except.ok (st.trace.take (s.trace.length + 2)) = Except.ok _
          rw [htr, List.take_append]
          simp
        · obtain ⟨st, h, -, -, -, -, -, -, htr⟩ :=
            job_submit_called env jd uid err_msg s l h_lock hL hf
          rw [h]
          show Except.ok (st.trace.take (s.trace.length + 2)) = Except.ok _
          rw [htr, List.take_append]
          simp
  · obtain ⟨st, h, -, -, -, -, -, -, htr⟩ :=
      job_modify_called (demo_env ⟨.ok [.number (.finite 0)], none, []⟩) demo_job_desc
        demo_job_rec 1000 demo_state demo_interp rfl rfl (by decide)
    rw [h]
    show Except.ok st.trace = Except.ok _
    rw [htr]
    rfl

theorem status_of_head (env env2 : Env) (results results2 : List LuaValue)
    (h1 : env2.str2number = env.str2number) (h2 : env2.undefined_int = env.undefined_int)
    (h : results2.headD .nil = results.headD .nil) :
    status_of env2 (.ok results2) = status_of env (.ok results) := by
  show (if (results2.headD .nil).isnumber env2 = true then
      double_to_int env2 (((results2.headD .nil).to_number env2).getD (.finite 0))
    else SLURM_SUCCESS) = (if (results.headD .nil).isnumber env = true then
      double_to_int env (((results.headD .nil).to_number env).getD (.finite 0))
    else SLURM_SUCCESS)
  have e1 : ∀ v : LuaValue, v.to_number env2 = v.to_number env := by
    intro v; cases v <;> simp [LuaValue.to_number, h1]
  have e2 : ∀ x, double_to_int env2 x = double_to_int env x := by
    intro x; cases x <;> simp [double_to_int, h2]
  simp only [LuaValue.isnumber, e1, e2, h]

/-- C9. When the entry point exists, job_submit pushes the job request, the
partition set and the submitter uid, in this order, and calls the entry point
with exactly these 3 arguments, asking for 1 result; job_modify pushes the job
request, the job record, the partition set and the submitter uid and calls with
exactly these 4 arguments, asking for 1 result.  The status depends on the
first returned value only: a script whose call returns the same first value,
whatever follows it, gives the same status. -/
theorem C9_argument_order_and_arity (env : Env) (jd : job_descriptor) (jp : job_record)
    (uid : Nat) (err_msg : Option String) (s : PluginState) (l : lua_State)
    (h_lock : s.lua_lock = false) :
    ((slurm_lua_load_script env s).2.L = some l →
      l.globals "slurm_job_submit" ≠ .nil →
      ∃ r j1 r1 j2 r2, job_submit env jd uid err_msg s = .ok r ∧
        r.state.trace = s.trace ++ [.mutex_lock, .load_script, .update_jobs_global j1,
          .update_resvs_global r1, .getglobal "slurm_job_submit", .update_jobs_global j2,
          .update_resvs_global r2,
          .push_job_desc jd, .push_partition_list jd.user_id uid,
          .pushnumber (uid_to_number uid), .stack_dump "job_submit, before lua_pcall",
          .pcall (l.globals "slurm_job_submit")
            [.table (.job_desc jd), .table (.partition_list jd.user_id uid),
             .number (uid_to_number uid)] 1,
          .stack_dump "job_submit, after lua_pcall", .get_user_msg, .mutex_unlock] ∧
        ∀ script2 results results2,
          (lua_call env (l.globals "slurm_job_submit") (submit_args jd uid)).outcome =
            .ok results →
          (lua_call (env.with_script script2) (l.globals "slurm_job_submit")
            (submit_args jd uid)).outcome = .ok results2 →
          results2.headD .nil = results.headD .nil →
          (job_submit (env.with_script script2) jd uid err_msg s).map HookResult.rc =
            .ok r.rc) ∧
    (s.L = some l →
      l.globals "slurm_job_modify" ≠ .nil →
      ∃ r j1 r1, job_modify env jd jp uid s = .ok r ∧
        r.state.trace = s.trace ++ [.mutex_lock, .getglobal "slurm_job_modify",
          .update_jobs_global j1, .update_resvs_global r1,
          .push_job_desc jd, .push_job_rec jp, .push_partition_list jp.user_id uid,
          .pushnumber (uid_to_number uid), .stack_dump "job_modify, before lua_pcall",
          .pcall (l.globals "slurm_job_modify")
            [.table (.job_desc jd), .table (.job_rec jp),
             .table (.partition_list jp.user_id uid), .number (uid_to_number uid)] 1,
          .stack_dump "job_modify, after lua_pcall", .get_user_msg, .mutex_unlock] ∧
        ∀ script2 results results2,
          (lua_call env (l.globals "slurm_job_modify") (modify_args jd jp uid)).outcome =
            .ok results →
          (lua_call (env.with_script script2) (l.globals "slurm_job_modify")
            (modify_args jd jp uid)).outcome = .ok results2 →
          results2.headD .nil = results.headD .nil →
          (job_modify (env.with_script script2) jd jp uid s).map HookResult.rc =
            .ok r.rc) := by
  constructor
  · intro hL hf
    obtain ⟨st, h, -, -, -, -, -, -, htr⟩ := job_submit_called env jd uid err_msg s l h_lock hL hf
    refine ⟨_, _, _, _, _, h, htr, ?_⟩
    intro script2 results results2 ho ho2 hhead
    obtain ⟨st2, h2, -⟩ :=
      job_submit_called (env.with_script script2) jd uid err_msg s l h_lock hL hf
    rw [h2, ho2]
    show Except.ok (status_of (env.with_script script2) (.ok results2)) =
      Except.ok (status_of env _)
    rw [ho, status_of_head env (env.with_script script2) results results2 rfl rfl hhead]
  · intro hL hf
    obtain ⟨st, h, -, -, -, -, -, -, htr⟩ := job_modify_called env jd jp uid s l h_lock hL hf
    refine ⟨_, _, _, h, htr, ?_⟩
    intro script2 results results2 ho ho2 hhead
    obtain ⟨st2, h2, -⟩ :=
      job_modify_called (env.with_script script2) jd jp uid s l h_lock hL hf
    rw [h2, ho2]
    show Except.ok (status_of (env.with_script script2) (.ok results2)) =
      Except.ok (status_of env _)
    rw [ho, status_of_head env (env.with_script script2) results results2 rfl rfl hhead]

/-- C9, at a script that returns 0 for the request of user 1000 submitted by uid 1000. -/
theorem C9_argument_order_and_arity_witness :
    (∃ r, job_submit (demo_env ⟨.ok [.number (.finite 0)], none, []⟩) demo_job_desc 1000 none
        demo_state = .ok r ∧
      Event.pcall (.function 0) [.table (.job_desc demo_job_desc),
        .table (.partition_list 1000 1000), .number (uid_to_number 1000)] 1 ∈ r.state.trace) ∧
    (∃ r, job_modify (demo_env ⟨.ok [.number (.finite 0)], none, []⟩) demo_job_desc
        demo_job_rec 1000 demo_state = .ok r ∧
      Event.pcall (.function 1) [.table (.job_desc demo_job_desc), .table (.job_rec demo_job_rec),
        .table (.partition_list 1000 1000), .number (uid_to_number 1000)] 1 ∈ r.state.trace) := by
  constructor
  · obtain ⟨r, _, _, _, _, h, htr, _⟩ := (C9_argument_order_and_arity
      (demo_env ⟨.ok [.number (.finite 0)], none, []⟩) demo_job_desc demo_job_rec 1000 none
      demo_state demo_interp rfl).1 rfl (by decide)
    refine ⟨r, h, ?_⟩
    rw [htr]
    simp [demo_interp, demo_globals, demo_job_desc]
  · obtain ⟨r, _, _, h, htr, _⟩ := (C9_argument_order_and_arity
      (demo_env ⟨.ok [.number (.finite 0)], none, []⟩) demo_job_desc demo_job_rec 1000 none
      demo_state demo_interp rfl).2 rfl (by decide)
    refine ⟨r, h, ?_⟩
    rw [htr]
    simp [demo_interp, demo_globals, demo_job_rec]

/-- C10, as stated, fails: when the load has failed and there is no interpreter,
neither hook returns the success status; both hand the missing interpreter to
the Lua API and do not return. -/
theorem C10_counterexample :
    (slurm_lua_load_script demo_env_load_fails demo_state_null).1 = SLURM_ERROR ∧
    (slurm_lua_load_script demo_env_load_fails demo_state_null).2.handle = none ∧
    (job_submit demo_env_load_fails demo_job_desc 1000 none demo_state_null).map HookResult.rc
      ≠ .ok SLURM_SUCCESS ∧
    (job_modify demo_env_load_fails demo_job_desc demo_job_rec 1000 demo_state_null).map
      HookResult.rc ≠ .ok SLURM_SUCCESS := by
  refine ⟨rfl, rfl, ?_, ?_⟩
  · rw [job_submit_null demo_env_load_fails demo_job_desc 1000 none demo_state_null rfl rfl]
    intro h; cases h
  · rw [job_modify_null demo_env_load_fails demo_job_desc demo_job_rec 1000 demo_state_null
      rfl rfl]
    intro h; cases h

/-- C10, amended. The hooks have no guard for a missing interpreter: when the
reload check of job_submit leaves none, or job_modify is entered with none, the
hook passes the NULL handle to the Lua API and does not return a status.  And
no hook call returns success without having called the interpreter: a call
that returns without a new interpreter call returns SLURM_ERROR. -/
theorem C10_no_short_circuit_without_interpreter (env : Env) (jd : job_descriptor)
    (jp : job_record) (uid : Nat) (err_msg : Option String) (s : PluginState) :
    (s.lua_lock = false → (slurm_lua_load_script env s).2.L = none →
      job_submit env jd uid err_msg s = .error .null_interpreter) ∧
    (s.lua_lock = false → s.L = none →
      job_modify env jd jp uid s = .error .null_interpreter) ∧
    (∀ r, job_submit env jd uid err_msg s = .ok r →
      r.state.trace.filter Event.is_pcall = s.trace.filter Event.is_pcall →
      r.rc = SLURM_ERROR) ∧
    (∀ r, job_modify env jd jp uid s = .ok r →
      r.state.trace.filter Event.is_pcall = s.trace.filter Event.is_pcall →
      r.rc = SLURM_ERROR) := by
  refine ⟨fun h_lock hL => job_submit_null env jd uid err_msg s h_lock hL,
    fun h_lock hL => job_modify_null env jd jp uid s h_lock hL, ?_, ?_⟩
  · intro r hr htr
    cases h_lock : s.lua_lock with
    | true => rw [job_submit_locked env jd uid err_msg s h_lock] at hr; cases hr
    | false =>
      cases hL : (slurm_lua_load_script env s).2.L with
      | none => rw [job_submit_null env jd uid err_msg s h_lock hL] at hr; cases hr
      | some l =>
        by_cases hf : l.globals "slurm_job_submit" = .nil
        · obtain ⟨st, h, -⟩ := job_submit_nil env jd uid err_msg s l h_lock hL hf
          rw [h] at hr; cases hr; rfl
        · obtain ⟨st, h, -, -, -, -, -, -, ht⟩ :=
            job_submit_called env jd uid err_msg s l h_lock hL hf
          rw [h] at hr; cases hr
          exfalso
          have htr2 : st.trace.filter Event.is_pcall = s.trace.filter Event.is_pcall := htr
          rw [ht] at htr2
          simp [Event.is_pcall] at htr2
  · intro r hr htr
    cases h_lock : s.lua_lock with
    | true => rw [job_modify_locked env jd jp uid s h_lock] at hr; cases hr
    | false =>
      cases hL : s.L with
      | none => rw [job_modify_null env jd jp uid s h_lock hL] at hr; cases hr
      | some l =>
        by_cases hf : l.globals "slurm_job_modify" = .nil
        · obtain ⟨st, h, -⟩ := job_modify_nil env jd jp uid s l h_lock hL hf
          rw [h] at hr; cases hr; rfl
        · obtain ⟨st, h, -, -, -, -, -, -, ht⟩ :=
            job_modify_called env jd jp uid s l h_lock hL hf
          rw [h] at hr; cases hr
          exfalso
          have htr2 : st.trace.filter Event.is_pcall = s.trace.filter Event.is_pcall := htr
          rw [ht] at htr2
          simp [Event.is_pcall] at htr2

/-- C10 amended, at a plugin without interpreter whose script cannot be loaded. -/
theorem C10_no_short_circuit_without_interpreter_witness :
    job_submit demo_env_load_fails demo_job_desc 1000 none demo_state_null =
      .error .null_interpreter ∧
    job_modify demo_env_load_fails demo_job_desc demo_job_rec 1000 demo_state_null =
      .error .null_interpreter :=
  ⟨(C10_no_short_circuit_without_interpreter demo_env_load_fails demo_job_desc demo_job_rec
      1000 none demo_state_null).1 rfl rfl,
   (C10_no_short_circuit_without_interpreter demo_env_load_fails demo_job_desc demo_job_rec
      1000 none demo_state_null).2.1 rfl rfl⟩

/-- The user-message side channel stays empty across returning hook calls: a
call entered with an empty side channel leaves it empty. -/
theorem side_channel_stays_empty (env : Env) (jd : job_descriptor) (jp : job_record)
    (uid : Nat) (err_msg : Option String) (s : PluginState) (h_buf : s.user_msg = none) :
    (∀ r, job_submit env jd uid err_msg s = .ok r → r.state.user_msg = none) ∧
    (∀ r, job_modify env jd jp uid s = .ok r → r.state.user_msg = none) := by
  constructor
  · intro r hr
    cases h_lock : s.lua_lock with
    | true => rw [job_submit_locked env jd uid err_msg s h_lock] at hr; cases hr
    | false =>
      cases hL : (slurm_lua_load_script env s).2.L with
      | none => rw [job_submit_null env jd uid err_msg s h_lock hL] at hr; cases hr
      | some l =>
        by_cases hf : l.globals "slurm_job_submit" = .nil
        · obtain ⟨st, h, -, -, hu, -⟩ := job_submit_nil env jd uid err_msg s l h_lock hL hf
          rw [h] at hr; cases hr
          show st.user_msg = none
          rw [hu, h_buf]
        · obtain ⟨st, h, -, -, hu, -⟩ := job_submit_called env jd uid err_msg s l h_lock hL hf
          rw [h] at hr; cases hr
          exact hu
  · intro r hr
    cases h_lock : s.lua_lock with
    | true => rw [job_modify_locked env jd jp uid s h_lock] at hr; cases hr
    | false =>
      cases hL : s.L with
      | none => rw [job_modify_null env jd jp uid s h_lock hL] at hr; cases hr
      | some l =>
        by_cases hf : l.globals "slurm_job_modify" = .nil
        · obtain ⟨st, h, -, -, hu, -⟩ := job_modify_nil env jd jp uid s l h_lock hL hf
          rw [h] at hr; cases hr
          show st.user_msg = none
          rw [hu, h_buf]
        · obtain ⟨st, h, -, -, hu, -⟩ := job_modify_called env jd jp uid s l h_lock hL hf
          rw [h] at hr; cases hr
          exact hu

/-- C11. A job_submit call entered with an empty user-message side channel, in
which the script writes no user message, returns with the caller's message
slot as it was on entry: when the entry point is missing, and when the entry
point is called, whatever the outcome of the call (numeric return,
non-numeric return, runtime error).  The text of a runtime error goes to the
log and not to the message slot. -/
theorem C11_no_message_leaves_err_msg (env : Env) (jd : job_descriptor) (uid : Nat)
    (err_msg : Option String) (s : PluginState) (l : lua_State)
    (h_lock : s.lua_lock = false) (hL : (slurm_lua_load_script env s).2.L = some l)
    (h_buf : s.user_msg = none) :
    (l.globals "slurm_job_submit" = .nil →
      ∃ r, job_submit env jd uid err_msg s = .ok r ∧ r.err_msg = err_msg) ∧
    (l.globals "slurm_job_submit" ≠ .nil →
      (lua_call env (l.globals "slurm_job_submit") (submit_args jd uid)).user_msg = none →
      ∃ r, job_submit env jd uid err_msg s = .ok r ∧ r.err_msg = err_msg ∧
        ∀ e, (lua_call env (l.globals "slurm_job_submit") (submit_args jd uid)).outcome =
            .error e →
          r.state.log = s.log ++ [.error (pcall_error_text env "job_submit" (e.to_string env))]) := by
  constructor
  · intro hf
    obtain ⟨st, h, -⟩ := job_submit_nil env jd uid err_msg s l h_lock hL hf
    exact ⟨_, h, rfl⟩
  · intro hf hw
    obtain ⟨st, h, -, -, -, -, -, hlog, -⟩ := job_submit_called env jd uid err_msg s l h_lock hL hf
    refine ⟨_, h, ?_, ?_⟩
    · show (log_user_msg s.user_msg _).or err_msg = err_msg
      rw [h_buf, hw]; rfl
    · intro e he
      show st.log = _
      rw [hlog, he]; rfl

/-- C11, at a script that raises the error "boom" and at a plugin without entry
points, the caller's slot holding "old". -/
theorem C11_no_message_leaves_err_msg_witness :
    (∃ r, job_submit (demo_env ⟨.error (.string "boom"), none, []⟩) demo_job_desc 1000
        (some "old") demo_state = .ok r ∧ r.err_msg = some "old") ∧
    (∃ r, job_submit (demo_env ⟨.ok [], none, []⟩) demo_job_desc 1000
        (some "old") demo_state_no_entry = .ok r ∧ r.err_msg = some "old") := by
  constructor
  · obtain ⟨r, h, he, _⟩ := (C11_no_message_leaves_err_msg
      (demo_env ⟨.error (.string "boom"), none, []⟩) demo_job_desc 1000 (some "old") demo_state
      demo_interp rfl rfl rfl).2 (by decide) rfl
    exact ⟨r, h, he⟩
  · exact (C11_no_message_leaves_err_msg (demo_env ⟨.ok [], none, []⟩) demo_job_desc 1000
      (some "old") demo_state_no_entry demo_interp_no_entry rfl rfl rfl).1 rfl

/-- C12. The partition set passed to the script is built for the pair (owner,
submitter): job_submit makes one push of the partition set, for the user id of
the job request and submit_uid, and that table is the second argument of the
call; job_modify makes one push, for the user id of the job record (whatever
the user id of the request) and submit_uid, and that table is the third
argument of the call. -/
theorem C12_partition_set_for_owner_and_submitter (env : Env) (jd : job_descriptor)
    (jp : job_record) (uid : Nat) (err_msg : Option String) (s : PluginState) (l : lua_State)
    (h_lock : s.lua_lock = false) :
    ((slurm_lua_load_script env s).2.L = some l →
      l.globals "slurm_job_submit" ≠ .nil →
      ∃ r, job_submit env jd uid err_msg s = .ok r ∧
        r.state.trace.filter Event.is_push_partition_list =
          s.trace.filter Event.is_push_partition_list ++
            [.push_partition_list jd.user_id uid] ∧
        r.state.trace.filter Event.is_pcall = s.trace.filter Event.is_pcall ++
          [.pcall (l.globals "slurm_job_submit")
            [.table (.job_desc jd), .table (.partition_list jd.user_id uid),
             .number (uid_to_number uid)] 1]) ∧
    (s.L = some l →
      l.globals "slurm_job_modify" ≠ .nil →
      ∃ r, job_modify env jd jp uid s = .ok r ∧
        r.state.trace.filter Event.is_push_partition_list =
          s.trace.filter Event.is_push_partition_list ++
            [.push_partition_list jp.user_id uid] ∧
        r.state.trace.filter Event.is_pcall = s.trace.filter Event.is_pcall ++
          [.pcall (l.globals "slurm_job_modify")
            [.table (.job_desc jd), .table (.job_rec jp),
             .table (.partition_list jp.user_id uid), .number (uid_to_number uid)] 1]) := by
  constructor
  · intro hL hf
    obtain ⟨st, h, -, -, -, -, -, -, htr⟩ := job_submit_called env jd uid err_msg s l h_lock hL hf
    refine ⟨_, h, ?_, ?_⟩
    · show st.trace.filter Event.is_push_partition_list = _
      rw [htr]
      simp [Event.is_push_partition_list]
    · show st.trace.filter Event.is_pcall = _
      rw [htr]
      simp [Event.is_pcall, submit_args]
  · intro hL hf
    obtain ⟨st, h, -, -, -, -, -, -, htr⟩ := job_modify_called env jd jp uid s l h_lock hL hf
    refine ⟨_, h, ?_, ?_⟩
    · show st.trace.filter Event.is_push_partition_list = _
      rw [htr]
      simp [Event.is_push_partition_list]
    · show st.trace.filter Event.is_pcall = _
      rw [htr]
      simp [Event.is_pcall, modify_args]

/-- C12, at a request of user 1000 for a job owned by user 2000, submitted by uid 3000. -/
theorem C12_partition_set_for_owner_and_submitter_witness :
    (∃ r, job_submit (demo_env ⟨.ok [], none, []⟩) demo_job_desc 3000 none demo_state = .ok r ∧
      r.state.trace.filter Event.is_push_partition_list = [.push_partition_list 1000 3000]) ∧
    (∃ r, job_modify (demo_env ⟨.ok [], none, []⟩) demo_job_desc demo_job_rec_other 3000
        demo_state = .ok r ∧
      r.state.trace.filter Event.is_push_partition_list = [.push_partition_list 2000 3000]) := by
  constructor
  · obtain ⟨r, h, hp, _⟩ := (C12_partition_set_for_owner_and_submitter
      (demo_env ⟨.ok [], none, []⟩) demo_job_desc demo_job_rec_other 3000 none demo_state
      demo_interp rfl).1 rfl (by decide)
    exact ⟨r, h, hp⟩
  · obtain ⟨r, h, hp, _⟩ := (C12_partition_set_for_owner_and_submitter
      (demo_env ⟨.ok [], none, []⟩) demo_job_desc demo_job_rec_other 3000 none demo_state
      demo_interp rfl).2 rfl (by decide)
    exact ⟨r, h, hp⟩

theorem load_check_keeps (env : Env) (file : Option ScriptFile) (s : PluginState)
    (l : lua_State) (hL : s.L = some l)
    (h : ∀ f, file = some f → f.mtime ≤ s.lua_script_last_loaded) :
    (slurm_lua_load_script (env.with_file file) s).2.L = some l ∧
    (slurm_lua_load_script (env.with_file file) s).2.lua_script_last_loaded =
      s.lua_script_last_loaded := by
  cases file with
  | none => simp [slurm_lua_load_script, Env.with_file, slurm_lua_load_script_spec, hL]
  | some f =>
    have hf := h f rfl
    simp [slurm_lua_load_script, Env.with_file, slurm_lua_load_script_spec, hL, hf]

theorem load_checks_keep (env : Env) (files : List (Option ScriptFile)) :
    ∀ (s : PluginState) (l : lua_State), s.L = some l →
      (∀ f, some f ∈ files → f.mtime ≤ s.lua_script_last_loaded) →
      (load_checks env files s).L = some l ∧
      (load_checks env files s).lua_script_last_loaded = s.lua_script_last_loaded := by
  induction files with
  | nil => intro s l hL _; exact ⟨hL, rfl⟩
  | cons file rest ih =>
    intro s l hL h
    obtain ⟨h1, h2⟩ := load_check_keeps env file s l hL
      (fun f hf => h f (by rw [hf]; exact List.mem_cons_self _ _))
    have h3 := ih (slurm_lua_load_script (env.with_file file) s).2 l h1
      (fun f hf => by rw [h2]; exact h f (List.mem_cons_of_mem _ hf))
    show (load_checks env rest (slurm_lua_load_script (env.with_file file) s).2).L = some l ∧
      (load_checks env rest (slurm_lua_load_script (env.with_file file) s).2).lua_script_last_loaded
        = s.lua_script_last_loaded
    rw [← h2]
    exact h3

/-- C13. On the reload check as the specification describes it: with an
interpreter in place, a check constructs a fresh interpreter if and only if
the modification time of the script file is strictly greater than the stamp
of the last successful load; a check that replaces the interpreter has seen
such a strictly greater time, and a strictly greater time with a loadable
script that defines the required entry points puts the fresh interpreter in
place; and after any sequence of checks of job_submit in which the file is
never newer than the stamp, the interpreter and the stamp are the ones from
before the sequence. -/
theorem C13_reload_iff_mtime_increased (env : Env) (f : ScriptFile) (l : lua_State)
    (last : Nat) (files : List (Option ScriptFile)) (s : PluginState) :
    ((slurm_lua_load_script_spec (some f) fns (some l) last).constructed = true ↔
      last < f.mtime) ∧
    ((slurm_lua_load_script_spec (some f) fns (some l) last).L.map lua_State.id ≠ some l.id →
      last < f.mtime) ∧
    (∀ fresh, last < f.mtime → f.loaded = some fresh →
      (fresh.globals "slurm_job_submit").callable = true →
      (fresh.globals "slurm_job_modify").callable = true →
      (slurm_lua_load_script_spec (some f) fns (some l) last).L.map lua_State.id =
        some fresh.id ∧
      (slurm_lua_load_script_spec (some f) fns (some l) last).last_loaded = f.mtime) ∧
    (s.L = some l →
      (∀ g, some g ∈ files → g.mtime ≤ s.lua_script_last_loaded) →
      (load_checks env files s).handle = s.handle ∧
      (load_checks env files s).L.map lua_State.stack = s.L.map lua_State.stack ∧
      (load_checks env files s).lua_script_last_loaded = s.lua_script_last_loaded) := by
  refine ⟨?_, ?_, ?_, ?_⟩
  · by_cases h : f.mtime ≤ last
    · simp [slurm_lua_load_script_spec, h, Nat.not_lt.mpr h]
    · have h2 : last < f.mtime := Nat.lt_of_not_le h
      cases hl : f.loaded with
      | none => simp [slurm_lua_load_script_spec, h, hl, h2]
      | some fresh =>
        by_cases hc : (fns.all fun name => (fresh.globals name).callable) = true
        · simp only [slurm_lua_load_script_spec, hl]
          rw [if_neg (fun hh => h hh.1), if_pos hc]
          simp [h2]
        · simp only [slurm_lua_load_script_spec, hl]
          rw [if_neg (fun hh => h hh.1), if_neg hc]
          simp [h2]
  · intro hne
    by_contra hlt
    have h : f.mtime ≤ last := Nat.le_of_not_lt hlt
    apply hne
    simp [slurm_lua_load_script_spec, h]
  · intro fresh hlt hl h1 h2
    have h : ¬ f.mtime ≤ last := Nat.not_le.mpr hlt
    have hc : (fns.all fun name => (fresh.globals name).callable) = true := by
      simp [fns, h1, h2]
    simp only [slurm_lua_load_script_spec, hl]
    rw [if_neg (fun hh => h hh.1), if_pos hc]
    exact ⟨rfl, rfl⟩
  · intro hL h
    obtain ⟨h1, h2⟩ := load_checks_keep env files s l hL h
    refine ⟨?_, ?_, h2⟩
    · rw [PluginState.handle, PluginState.handle, h1, hL]
    · rw [h1, hL]

/-- C13, at three checks of a file last changed at time 50 against a stamp of 50. -/
theorem C13_reload_iff_mtime_increased_witness :
    (load_checks (demo_env ⟨.ok [], none, []⟩) [some demo_file, none, some demo_file]
      demo_state_loaded).handle = some 1 ∧
    (load_checks (demo_env ⟨.ok [], none, []⟩) [some demo_file, none, some demo_file]
      demo_state_loaded).lua_script_last_loaded = 50 := by
  obtain ⟨h1, _, h3⟩ := (C13_reload_iff_mtime_increased (demo_env ⟨.ok [], none, []⟩) demo_file
    demo_interp 50 [some demo_file, none, some demo_file] demo_state_loaded).2.2.2 rfl
    (by
      intro g hg
      have hg2 : g = demo_file := by simpa using hg
      rw [hg2]
      exact Nat.le_refl 50)
  exact ⟨h1, h3⟩

/-- C14. On the mirror refresh as the specification describes it, with the last
mutation of the source not later than the time of the first call: two refresh
calls on the same interpreter with no mutation of the source in between (the
second may come at any later time) both return, and the second changes
nothing but the record of calls, where it is entered as a call that did not
marshal; this holds for the jobs mirror and for the reservations mirror.  In a
job_submit invocation that calls the entry point, the second pair of refresh
calls does not marshal. -/
theorem C14_refresh_idempotent (env : Env) (env2 : Env) (jd : job_descriptor) (uid : Nat)
    (err_msg : Option String) (s : PluginState) (l : lua_State) :
    (s.L = some l → env2.last_job_update = env.last_job_update →
      env.last_job_update ≤ env.now →
      ∃ s1, slurm_lua_update_jobs_global env s = .ok s1 ∧
        slurm_lua_update_jobs_global env2 s1 =
          .ok { s1 with trace := s1.trace ++ [.update_jobs_global false] }) ∧
    (s.L = some l → env2.last_resv_update = env.last_resv_update →
      env.last_resv_update ≤ env.now →
      ∃ s1, slurm_lua_update_resvs_global env s = .ok s1 ∧
        slurm_lua_update_resvs_global env2 s1 =
          .ok { s1 with trace := s1.trace ++ [.update_resvs_global false] }) ∧
    (s.lua_lock = false → (slurm_lua_load_script env s).2.L = some l →
      l.globals "slurm_job_submit" ≠ .nil →
      env.last_job_update ≤ env.now → env.last_resv_update ≤ env.now →
      ∃ r j1 r1, job_submit env jd uid err_msg s = .ok r ∧
        r.state.trace = s.trace ++ [.mutex_lock, .load_script, .update_jobs_global j1,
          .update_resvs_global r1, .getglobal "slurm_job_submit",
          .update_jobs_global false, .update_resvs_global false,
          .push_job_desc jd, .push_partition_list jd.user_id uid,
          .pushnumber (uid_to_number uid), .stack_dump "job_submit, before lua_pcall",
          .pcall (l.globals "slurm_job_submit") (submit_args jd uid) 1,
          .stack_dump "job_submit, after lua_pcall", .get_user_msg, .mutex_unlock]) := by
  refine ⟨?_, ?_, ?_⟩
  · intro hL h2 hnow
    obtain ⟨L, a, b, c, d, m, lg, tr⟩ := s
    simp only at hL
    subst hL
    refine ⟨_, update_jobs_some env l a b c d m lg tr, ?_⟩
    rw [update_jobs_some]
    have hns : ¬ (if b < env.last_job_update then env.now else b) < env2.last_job_update := by
      rw [h2]
      by_cases hb : b < env.last_job_update
      · rw [if_pos hb]; exact Nat.not_lt.mpr hnow
      · rw [if_neg hb]; exact hb
    simp [hns]
  · intro hL h2 hnow
    obtain ⟨L, a, b, c, d, m, lg, tr⟩ := s
    simp only at hL
    subst hL
    refine ⟨_, update_resvs_some env l a b c d m lg tr, ?_⟩
    rw [update_resvs_some]
    have hns : ¬ (if c < env.last_resv_update then env.now else c) < env2.last_resv_update := by
      rw [h2]
      by_cases hb : c < env.last_resv_update
      · rw [if_pos hb]; exact Nat.not_lt.mpr hnow
      · rw [if_neg hb]; exact hb
    simp [hns]
  · intro h_lock hL hf hj hr
    obtain ⟨st, h, -, -, -, -, -, -, htr⟩ := job_submit_called env jd uid err_msg s l h_lock hL hf
    refine ⟨_, decide (s.last_lua_jobs_update < env.last_job_update),
      decide (s.last_lua_resv_update < env.last_resv_update), h, ?_⟩
    show st.trace = _
    rw [htr]
    have hj2 : ¬ (if s.last_lua_jobs_update < env.last_job_update then env.now
        else s.last_lua_jobs_update) < env.last_job_update := by
      by_cases hb : s.last_lua_jobs_update < env.last_job_update
      · rw [if_pos hb]; exact Nat.not_lt.mpr hj
      · rw [if_neg hb]; exact hb
    have hr2 : ¬ (if s.last_lua_resv_update < env.last_resv_update then env.now
        else s.last_lua_resv_update) < env.last_resv_update := by
      by_cases hb : s.last_lua_resv_update < env.last_resv_update
      · rw [if_pos hb]; exact Nat.not_lt.mpr hr
      · rw [if_neg hb]; exact hb
    rw [decide_eq_false hj2, decide_eq_false hr2]

/-- C14, at mirrors last synced at time 0 of collections last mutated at time
10: the first call marshals, the second does not. -/
theorem C14_refresh_idempotent_witness :
    (∃ s1, slurm_lua_update_jobs_global demo_env_stale demo_state = .ok s1 ∧
      slurm_lua_update_jobs_global demo_env_stale s1 =
        .ok { s1 with trace := s1.trace ++ [.update_jobs_global false] }) ∧
    (∃ s1, slurm_lua_update_resvs_global demo_env_stale demo_state = .ok s1 ∧
      slurm_lua_update_resvs_global demo_env_stale s1 =
        .ok { s1 with trace := s1.trace ++ [.update_resvs_global false] }) :=
  ⟨(C14_refresh_idempotent demo_env_stale demo_env_stale demo_job_desc 1000 none demo_state
      demo_interp).1 rfl rfl (by decide),
   (C14_refresh_idempotent demo_env_stale demo_env_stale demo_job_desc 1000 none demo_state
      demo_interp).2.1 rfl rfl (by decide)⟩

/-- C16. In a job_submit or job_modify invocation that calls the interpreter,
the jobs mirror and the reservations mirror are each checked for staleness
after the hook lock is taken, before the lock is released, before any argument
is pushed and before the call: the record of the invocation is a first part
that starts with the lock and holds no unlock, no push and no call, then the
two refresh calls, then the rest with the pushes and the single call. -/
theorem C16_mirrors_refreshed_before_call (env : Env) (jd : job_descriptor) (jp : job_record)
    (uid : Nat) (err_msg : Option String) (s : PluginState) (l : lua_State)
    (h_lock : s.lua_lock = false) :
    ((slurm_lua_load_script env s).2.L = some l →
      l.globals "slurm_job_submit" ≠ .nil →
      ∃ r before rest j1 r1, job_submit env jd uid err_msg s = .ok r ∧
        r.state.trace = s.trace ++ before ++
          [.update_jobs_global j1, .update_resvs_global r1] ++ rest ∧
        before.head? = some .mutex_lock ∧ .mutex_unlock ∉ before ∧
        before.filter Event.is_push = [] ∧ before.filter Event.is_pcall = [] ∧
        rest.filter Event.is_push = [.push_job_desc jd, .push_partition_list jd.user_id uid,
          .pushnumber (uid_to_number uid)] ∧
        rest.filter Event.is_pcall =
          [.pcall (l.globals "slurm_job_submit") (submit_args jd uid) 1] ∧
        rest.getLast? = some .mutex_unlock) ∧
    (s.L = some l →
      l.globals "slurm_job_modify" ≠ .nil →
      ∃ r before rest j1 r1, job_modify env jd jp uid s = .ok r ∧
        r.state.trace = s.trace ++ before ++
          [.update_jobs_global j1, .update_resvs_global r1] ++ rest ∧
        before.head? = some .mutex_lock ∧ .mutex_unlock ∉ before ∧
        before.filter Event.is_push = [] ∧ before.filter Event.is_pcall = [] ∧
        rest.filter Event.is_push = [.push_job_desc jd, .push_job_rec jp,
          .push_partition_list jp.user_id uid, .pushnumber (uid_to_number uid)] ∧
        rest.filter Event.is_pcall =
          [.pcall (l.globals "slurm_job_modify") (modify_args jd jp uid) 1] ∧
        rest.getLast? = some .mutex_unlock) := by
  constructor
  · intro hL hf
    obtain ⟨st, h, -, -, -, -, -, -, htr⟩ := job_submit_called env jd uid err_msg s l h_lock hL hf
    refine ⟨_, [.mutex_lock, .load_script,
        .update_jobs_global (decide (s.last_lua_jobs_update < env.last_job_update)),
        .update_resvs_global (decide (s.last_lua_resv_update < env.last_resv_update)),
        .getglobal "slurm_job_submit"],
      [.push_job_desc jd, .push_partition_list jd.user_id uid,
        .pushnumber (uid_to_number uid), .stack_dump "job_submit, before lua_pcall",
        .pcall (l.globals "slurm_job_submit") (submit_args jd uid) 1,
        .stack_dump "job_submit, after lua_pcall", .get_user_msg, .mutex_unlock],
      decide ((if s.last_lua_jobs_update < env.last_job_update then env.now
        else s.last_lua_jobs_update) < env.last_job_update),
      decide ((if s.last_lua_resv_update < env.last_resv_update then env.now
        else s.last_lua_resv_update) < env.last_resv_update),
      h, ?_, ?_, ?_, ?_, ?_, ?_, ?_, ?_⟩
    · show st.trace = _
      rw [htr]
      simp
    · rfl
    · simp
    · simp [Event.is_push]
    · simp [Event.is_pcall]
    · simp [Event.is_push]
    · simp [Event.is_pcall]
    · simp
  · intro hL hf
    obtain ⟨st, h, -, -, -, -, -, -, htr⟩ := job_modify_called env jd jp uid s l h_lock hL hf
    refine ⟨_, [.mutex_lock, .getglobal "slurm_job_modify"],
      [.push_job_desc jd, .push_job_rec jp, .push_partition_list jp.user_id uid,
        .pushnumber (uid_to_number uid), .stack_dump "job_modify, before lua_pcall",
        .pcall (l.globals "slurm_job_modify") (modify_args jd jp uid) 1,
        .stack_dump "job_modify, after lua_pcall", .get_user_msg, .mutex_unlock],
      decide (s.last_lua_jobs_update < env.last_job_update),
      decide (s.last_lua_resv_update < env.last_resv_update),
      h, ?_, ?_, ?_, ?_, ?_, ?_, ?_, ?_⟩
    · show st.trace = _
      rw [htr]
      simp
    · rfl
    · simp
    · simp [Event.is_push]
    · simp [Event.is_pcall]
    · simp [Event.is_push]
    · simp [Event.is_pcall]
    · simp

/-- C16, at a script that returns 0, with both mirrors stale. -/
theorem C16_mirrors_refreshed_before_call_witness :
    (∃ r, job_submit demo_env_stale demo_job_desc 1000 none demo_state = .ok r ∧
      Event.update_jobs_global true ∈ r.state.trace ∧
      Event.update_resvs_global true ∈ r.state.trace) ∧
    (∃ r, job_modify demo_env_stale demo_job_desc demo_job_rec 1000 demo_state = .ok r ∧
      (∃ j, Event.update_jobs_global j ∈ r.state.trace) ∧
      (∃ j, Event.update_resvs_global j ∈ r.state.trace)) := by
  constructor
  · obtain ⟨st, h, -, -, -, -, -, -, htr⟩ := job_submit_called demo_env_stale demo_job_desc 1000
      none demo_state demo_interp rfl rfl (by decide)
    refine ⟨_, h, ?_, ?_⟩
    · show _ ∈ st.trace
      rw [htr]
      simp [demo_env_stale, demo_state]
    · show _ ∈ st.trace
      rw [htr]
      simp [demo_env_stale, demo_state]
  · obtain ⟨r, before, rest, j1, r1, h, htr, _⟩ := (C16_mirrors_refreshed_before_call
      demo_env_stale demo_job_desc demo_job_rec 1000 none demo_state demo_interp rfl).2 rfl
      (by decide)
    refine ⟨r, h, ⟨j1, ?_⟩, ⟨r1, ?_⟩⟩
    · rw [htr]; simp
    · rw [htr]; simp

/-- C17 fails on the code on two of the four paths.  With an empty stack on
entry: after a runtime error the error value is still on the stack, after a
missing entry point the nil that lua_getglobal pushed is still on the stack,
and a second failing call adds a second value; after a numeric return the
stack is empty again. -/
theorem C17_stack_grows_on_error_and_missing_entry :
    demo_state.L.map lua_State.stack = some [] ∧
    demo_state_no_entry.L.map lua_State.stack = some [] ∧
    (job_submit (demo_env ⟨.error (.string "boom"), none, []⟩) demo_job_desc 1000 none
        demo_state).map (fun r => r.state.L.map lua_State.stack) =
      .ok (some [.string "boom"]) ∧
    (job_modify (demo_env ⟨.error (.string "boom"), none, []⟩) demo_job_desc demo_job_rec 1000
        demo_state).map (fun r => r.state.L.map lua_State.stack) =
      .ok (some [.string "boom"]) ∧
    (job_submit (demo_env ⟨.ok [], none, []⟩) demo_job_desc 1000 none
        demo_state_no_entry).map (fun r => r.state.L.map lua_State.stack) =
      .ok (some [.nil]) ∧
    (job_modify (demo_env ⟨.ok [], none, []⟩) demo_job_desc demo_job_rec 1000
        demo_state_no_entry).map (fun r => r.state.L.map lua_State.stack) =
      .ok (some [.nil]) ∧
    ((job_modify (demo_env ⟨.ok [], none, []⟩) demo_job_desc demo_job_rec 1000
        demo_state_no_entry).bind (fun r => job_modify (demo_env ⟨.ok [], none, []⟩)
          demo_job_desc demo_job_rec 1000 r.state)).map
        (fun r => r.state.L.map lua_State.stack) =
      .ok (some [.nil, .nil]) ∧
    (job_submit (demo_env ⟨.ok [.number (.finite 0)], none, []⟩) demo_job_desc 1000 none
        demo_state).map (fun r => r.state.L.map lua_State.stack) = .ok (some []) := by
  refine ⟨rfl, rfl, ?_, ?_, ?_, ?_, ?_, ?_⟩
  · obtain ⟨st, h, -, -, -, -, hst, -⟩ := job_submit_called
      (demo_env ⟨.error (.string "boom"), none, []⟩) demo_job_desc 1000 none demo_state
      demo_interp rfl rfl (by decide)
    rw [h]
    show Except.ok (st.L.map lua_State.stack) = _
    rw [hst]; rfl
  · obtain ⟨st, h, -, -, -, -, hst, -⟩ := job_modify_called
      (demo_env ⟨.error (.string "boom"), none, []⟩) demo_job_desc demo_job_rec 1000 demo_state
      demo_interp rfl rfl (by decide)
    rw [h]
    show Except.ok (st.L.map lua_State.stack) = _
    rw [hst]; rfl
  · obtain ⟨st, h, -, -, -, hst, -⟩ := job_submit_nil (demo_env ⟨.ok [], none, []⟩)
      demo_job_desc 1000 none demo_state_no_entry demo_interp_no_entry rfl rfl rfl
    rw [h]
    show Except.ok (st.L.map lua_State.stack) = _
    rw [hst]; rfl
  · obtain ⟨st, h, -, -, -, hst, -⟩ := job_modify_nil (demo_env ⟨.ok [], none, []⟩)
      demo_job_desc demo_job_rec 1000 demo_state_no_entry demo_interp_no_entry rfl rfl rfl
    rw [h]
    show Except.ok (st.L.map lua_State.stack) = _
    rw [hst]; rfl
  · rfl
  · obtain ⟨st, h, -, -, -, -, hst, -⟩ := job_submit_called
      (demo_env ⟨.ok [.number (.finite 0)], none, []⟩) demo_job_desc 1000 none demo_state
      demo_interp rfl rfl (by decide)
    rw [h]
    show Except.ok (st.L.map lua_State.stack) = _
    rw [hst]; rfl

/-- C18. When xlua_dlopen fails, init returns its status at once: the script
is not loaded and no mirror is refreshed.  Otherwise init returns exactly the
status of the script load, whether that is success or not, and the calls it
makes are, in order: the load, taking the job read lock, one refresh of the
jobs mirror, one refresh of the reservations mirror, releasing the job read
lock.  (The refresh calls return when an interpreter is in place after the
load or no mirror is stale.) -/
theorem C18_init_sequence (env : Env) (s : PluginState) :
    (env.xlua_dlopen ≠ SLURM_SUCCESS →
      init env s = .ok (env.xlua_dlopen, { s with trace := s.trace ++ [.xlua_dlopen] })) ∧
    (env.xlua_dlopen = SLURM_SUCCESS →
      ((slurm_lua_load_script env s).2.L.isSome = true ∨
        (env.last_job_update ≤ s.last_lua_jobs_update ∧
         env.last_resv_update ≤ s.last_lua_resv_update)) →
      ∃ j r st, init env s = .ok ((slurm_lua_load_script env s).1, st) ∧
        st.trace = s.trace ++ [.xlua_dlopen, .load_script, .lock_slurmctld job_read_lock,
          .update_jobs_global j, .update_resvs_global r, .unlock_slurmctld job_read_lock] ∧
        job_read_lock = [.NO_LOCK, .READ_LOCK, .NO_LOCK, .NO_LOCK, .NO_LOCK] ∧
        st.handle = (slurm_lua_load_script env s).2.handle ∧
        st.lua_lock = s.lua_lock) := by
  obtain ⟨L, a, b, c, d, m, lg, tr⟩ := s
  constructor
  · intro h
    simp [init, xlua_dlopen, h, pure, Except.pure]
  · intro h hrun
    simp only [slurm_lua_load_script] at hrun
    cases hL : (env.load_script L a).2.1 with
    | some l =>
      refine ⟨decide (b < env.last_job_update), decide (c < env.last_resv_update), ?_⟩
      simp [init, xlua_dlopen, h, pure, Except.pure, bind, Except.bind, slurm_lua_load_script,
        lock_slurmctld, unlock_slurmctld, hL, update_jobs_some, update_resvs_some,
        PluginState.handle, job_read_lock]
    | none =>
      rw [hL] at hrun
      have hb : ¬ b < env.last_job_update := by
        rcases hrun with h1 | ⟨h1, -⟩
        · simp at h1
        · exact Nat.not_lt.mpr h1
      have hc : ¬ c < env.last_resv_update := by
        rcases hrun with h1 | ⟨-, h1⟩
        · simp at h1
        · exact Nat.not_lt.mpr h1
      refine ⟨false, false, ?_⟩
      simp [init, xlua_dlopen, h, pure, Except.pure, bind, Except.bind, slurm_lua_load_script,
        lock_slurmctld, unlock_slurmctld, hL, slurm_lua_update_jobs_global,
        slurm_lua_update_resvs_global, hb, hc, PluginState.handle, job_read_lock]

/-- C18, at a Lua library that cannot be bound (status -1), and at a script
that cannot be loaded while no mirror is stale. -/
theorem C18_init_sequence_witness :
    (init { demo_env_load_fails with xlua_dlopen := -1 } demo_state_null).map Prod.fst =
      .ok (-1) ∧
    (∃ j r st, init demo_env_load_fails demo_state_null = .ok (SLURM_ERROR, st) ∧
      st.trace = [.xlua_dlopen, .load_script, .lock_slurmctld job_read_lock,
        .update_jobs_global j, .update_resvs_global r, .unlock_slurmctld job_read_lock]) := by
  constructor
  · rw [(C18_init_sequence { demo_env_load_fails with xlua_dlopen := -1 } demo_state_null).1
      (by decide)]
    rfl
  · obtain ⟨j, r, st, h, htr, _⟩ := (C18_init_sequence demo_env_load_fails demo_state_null).2
      rfl (Or.inr ⟨Nat.le_refl 0, Nat.le_refl 0⟩)
    exact ⟨j, r, st, h, htr⟩

end JobSubmitLua

namespace Sacctmgr

open JobSubmitLua (SLURM_SUCCESS SLURM_ERROR)

theorem set_cond_loop_cursor (env : Env) (args : List String) :
    ∀ (i : Int) (st : CondState), i - 1 ≤ (set_cond_loop env args i st).1 := by
  induction args with
  | nil => intro i st; simp [set_cond_loop]
  | cons a rest ih =>
    intro i st
    simp only [set_cond_loop]
    split_ifs
    · exact Int.le_refl _
    all_goals
      first
        | exact Int.le_trans (by omega) (ih (i + 1) _)

theorem set_cond_loop_cursor_cons (env : Env) (a : String) (rest : List String) (i : Int)
    (st : CondState) (h : strncasecmp_eq a "Set" 3 = false) :
    i ≤ (set_cond_loop env (a :: rest) i st).1 := by
  simp only [set_cond_loop, h, Bool.false_eq_true, if_false]
  split_ifs
  all_goals
    first
      | exact Int.le_trans (by omega) (set_cond_loop_cursor env rest (i + 1) _)

theorem set_rec_loop_cursor (env : Env) (args : List String) :
    ∀ (i : Int) (st : RecState), i - 1 ≤ (set_rec_loop env args i st).1 := by
  induction args with
  | nil => intro i st; simp [set_rec_loop]
  | cons a rest ih =>
    intro i st
    simp only [set_rec_loop]
    split_ifs
    · exact Int.le_refl _
    all_goals
      first
        | exact Int.le_trans (by omega) (ih (i + 1) _)

theorem modify_body_advances (env : Env) (argv : List String) (i : Int) (st : ModifyState)
    (h0 : 0 ≤ i) (h1 : i < (argv.length : Int)) :
    i < (modify_body env argv i st).1 + 1 := by
  unfold modify_body
  by_cases hw : strncasecmp_eq (argv.getD i.toNat "") "Where" 5 = true
  · rw [if_pos hw]
    have h := set_cond_loop_cursor env (argv.drop (i + 1).toNat) (i + 1)
      ⟨st.cluster_list, none, 0, []⟩
    show i < (set_cond_loop env (argv.drop (i + 1).toNat) (i + 1) _).1 + 1
    omega
  · rw [if_neg hw]
    by_cases hs : strncasecmp_eq (argv.getD i.toNat "") "Set" 3 = true
    · rw [if_pos hs]
      have h := set_rec_loop_cursor env (argv.drop (i + 1).toNat) (i + 1) ⟨st.assoc, 0, []⟩
      show i < (set_rec_loop env (argv.drop (i + 1).toNat) (i + 1) _).1 + 1
      omega
    · rw [if_neg hs]
      have hn : i.toNat < argv.length := by omega
      have hd : argv.drop i.toNat = argv.getD i.toNat "" :: argv.drop (i.toNat + 1) := by
        rw [List.getD_eq_getElem argv "" hn]
        exact List.drop_eq_getElem_cons hn
      have h := set_cond_loop_cursor_cons env (argv.getD i.toNat "") (argv.drop (i.toNat + 1)) i
        ⟨st.cluster_list, none, 0, []⟩ (by simpa using hs)
      show i < (set_cond_loop env (argv.drop i.toNat) i _).1 + 1
      rw [hd]
      omega

theorem modify_loop_finishes (env : Env) (argv : List String) :
    ∀ (fuel : Nat) (i : Int) (st : ModifyState), 0 ≤ i → (argv.length : Int) - i ≤ fuel →
      ∃ r, modify_loop env argv fuel i st = some r ∧ (argv.length : Int) ≤ r.1 := by
  intro fuel
  induction fuel with
  | zero =>
    intro i st _ h
    have hi : ¬ i < (argv.length : Int) := by omega
    refine ⟨(i, st), ?_, by simp; omega⟩
    unfold modify_loop
    rw [if_neg hi]
  | succ n ih =>
    intro i st h0 h
    by_cases hi : i < (argv.length : Int)
    · have ha := modify_body_advances env argv i st h0 hi
      obtain ⟨r, hr, hle⟩ := ih ((modify_body env argv i st).1 + 1) (modify_body env argv i st).2
        (by omega) (by push_cast at h ⊢; omega)
      refine ⟨r, ?_, hle⟩
      rw [modify_loop, if_pos hi]
      exact hr
    · refine ⟨(i, st), ?_, by simp; omega⟩
      unfold modify_loop
      rw [if_neg hi]

/-- C19. The argument-scanning loop of sacctmgr_modify_cluster terminates for
every argument vector: every iteration entered with the cursor inside the
vector leaves the cursor, after the `i++` of the loop, strictly greater than
it was when the iteration started, although _set_cond and _set_rec may hand
back a cursor one below their starting point; hence argc iterations are
enough for the loop to be left, with the cursor at argc or beyond. -/
theorem C19_modify_cluster_scan_terminates (env : Env) (argv : List String) :
    (∀ (i : Int) (st : ModifyState), 0 ≤ i → i < (argv.length : Int) →
      i < (modify_body env argv i st).1 + 1) ∧
    (∀ (start : Int) (cl : List String) (fl : Option (List String)),
      start - 1 ≤ (_set_cond env start argv cl fl).1) ∧
    (∀ (start : Int) (assoc : acct_association_rec_t),
      start - 1 ≤ (_set_rec env start argv assoc).1) ∧
    (∃ r, modify_loop env argv argv.length 0 modify_start = some r ∧
      (argv.length : Int) ≤ r.1) :=
  ⟨fun i st h0 h1 => modify_body_advances env argv i st h0 h1,
   fun start cl fl => set_cond_loop_cursor env _ start _,
   fun start assoc => set_rec_loop_cursor env _ start _,
   modify_loop_finishes env argv argv.length 0 modify_start (Int.le_refl 0) (by omega)⟩

/-- C19, at the arguments `where set MaxJobs=5 where c1`: in the first
iteration _set_cond starts at 1, meets "set" there and hands back 0, and the
loop goes on at 1. -/
theorem C19_modify_cluster_scan_terminates_witness :
    (_set_cond demo_env 1 ["where", "set", "MaxJobs=5", "where", "c1"] [] none).1 = 0 ∧
    (0 : Int) < (modify_body demo_env ["where", "set", "MaxJobs=5", "where", "c1"] 0
      modify_start).1 + 1 ∧
    (∃ r, modify_loop demo_env ["where", "set", "MaxJobs=5", "where", "c1"] 5 0 modify_start =
      some r ∧ (5 : Int) ≤ r.1) :=
  ⟨by decide,
   (C19_modify_cluster_scan_terminates demo_env ["where", "set", "MaxJobs=5", "where", "c1"]).1
     0 modify_start (by decide) (by decide),
   (C19_modify_cluster_scan_terminates demo_env
     ["where", "set", "MaxJobs=5", "where", "c1"]).2.2.2⟩

theorem set_cond_loop_no_name (env : Env) (args : List String) :
    ∀ (i : Int) (st : CondState),
      (∀ a ∈ before_set args, names_cluster env a = false) →
      (set_cond_loop env args i st).2.set = st.set ∧
      (set_cond_loop env args i st).2.cluster_list = st.cluster_list := by
  induction args with
  | nil => intro i st _; simp [set_cond_loop]
  | cons a rest ih =>
    intro i st h
    by_cases hs : strncasecmp_eq a "Set" 3 = true
    · simp [set_cond_loop, hs]
    · have hs2 : strncasecmp_eq a "Set" 3 = false := by simpa using hs
      have hb : before_set (a :: rest) = a :: before_set rest := by
        simp [before_set, hs2]
      have ha : names_cluster env a = false := h a (by rw [hb]; exact List.mem_cons_self _ _)
      have hrest : ∀ b ∈ before_set rest, names_cluster env b = false :=
        fun b hbm => h b (by rw [hb]; exact List.mem_cons_of_mem _ hbm)
      simp only [set_cond_loop, hs2, Bool.false_eq_true, if_false]
      by_cases he : env.parse_option_end a = 0
      · have hw : strncasecmp_eq a "where" 5 = true := by
          simpa [names_cluster, he] using ha
        rw [if_pos ⟨he, hw⟩]
        exact ih (i + 1) st hrest
      · have hn : strncasecmp_eq a "Names" 1 = false := by
          simpa [names_cluster, he] using ha
        rw [if_neg (fun hh => he hh.1), if_neg he]
        by_cases hf : strncasecmp_eq a "Format" 1 = true
        · rw [if_pos hf]
          cases hfl : st.format_list with
          | none => exact ih (i + 1) st hrest
          | some fl => exact ih (i + 1) _ hrest
        · rw [if_neg hf, hn]
          simp only [Bool.false_eq_true, if_false]
          exact ih (i + 1) _ hrest

/-- C20. For every argument vector in which no argument in front of the first
"Set" keyword names a cluster (none is a bare token other than "where", none
is a Names= option), _set_cond returns 0 and sacctmgr_delete_cluster returns
SLURM_ERROR without calling acct_storage_g_remove_clusters; and for every
argument vector, when acct_storage_g_remove_clusters is called, the cluster
list handed to it is not empty. -/
theorem C20_delete_needs_cluster_condition (env : Env) (argv : List String) :
    ((∀ a ∈ before_set argv, names_cluster env a = false) →
      (_set_cond env 0 argv [] none).2.set = 0 ∧
      (sacctmgr_delete_cluster env argv).rc = SLURM_ERROR ∧
      (sacctmgr_delete_cluster env argv).removal = none) ∧
    (∀ cl, (sacctmgr_delete_cluster env argv).removal = some cl → cl ≠ []) := by
  constructor
  · intro h
    have h0 : (_set_cond env 0 argv [] none).2.set = 0 :=
      (set_cond_loop_no_name env argv 0 ⟨[], none, 0, []⟩ h).1
    refine ⟨h0, ?_, ?_⟩
    · unfold sacctmgr_delete_cluster
      simp only [h0, if_true]
    · unfold sacctmgr_delete_cluster
      simp only [h0, if_true]
  · intro cl hcl
    unfold sacctmgr_delete_cluster at hcl
    by_cases h0 : (_set_cond env 0 argv [] none).2.set = 0
    · simp only [h0, if_true] at hcl
      cases hcl
    · by_cases h1 : (_set_cond env 0 argv [] none).2.cluster_list.length = 0
      · simp only [h0, h1, if_true, if_false] at hcl
        cases hcl
      · have hne : (_set_cond env 0 argv [] none).2.cluster_list ≠ [] := by
          intro hnil
          exact h1 (by rw [hnil]; rfl)
        simp only [h0, h1, if_false] at hcl
        cases hr : env.acct_storage_g_remove_clusters
            (_set_cond env 0 argv [] none).2.cluster_list with
        | none =>
          rw [hr] at hcl
          simp only [Option.some.injEq] at hcl
          rw [← hcl]; exact hne
        | some ret_list =>
          rw [hr] at hcl
          by_cases h2 : ret_list.length ≠ 0
          · simp only [h2, if_true, ne_eq, not_false_eq_true, Option.some.injEq] at hcl
            rw [← hcl]; exact hne
          · simp only [h2, if_false, Option.some.injEq] at hcl
            rw [← hcl]; exact hne

/-- C20, at the arguments `where Format=Cluster set c1`, which name no cluster
in front of "set", and at the argument `c1`, which does. -/
theorem C20_delete_needs_cluster_condition_witness :
    ((_set_cond demo_env 0 ["where", "Format=Cluster", "set", "c1"] [] none).2.set = 0 ∧
      (sacctmgr_delete_cluster demo_env ["where", "Format=Cluster", "set", "c1"]).rc =
        SLURM_ERROR ∧
      (sacctmgr_delete_cluster demo_env ["where", "Format=Cluster", "set", "c1"]).removal =
        none) ∧
    (sacctmgr_delete_cluster demo_env ["c1"]).removal = some ["c1"] ∧
    ["c1"] ≠ ([] : List String) :=
  ⟨(C20_delete_needs_cluster_condition demo_env ["where", "Format=Cluster", "set", "c1"]).1
      (by decide),
   by decide,
   (C20_delete_needs_cluster_condition demo_env ["c1"]).2 ["c1"] (by decide)⟩

end Sacctmgr
